import Mathlib

/-!
# smugglefuzz: the HTTP/2 frame codec of `lib/http2.go`

A shallow embedding of `lib/http2.go`: the frame builders
(`generateSettingsFrame`, `GenerateRequest`, `generateDataFrame`,
`generateWindowUpdateFrame`), the classifier loop `HandleConnection` as a step
function over the frames read, and the handshake `EstablishH2Connection` over a
connection seen as a writer; with theorems about the bytes and messages they produce.

Conventions of the embedding

* a Go `[]byte` and a Go `string` are both a `List Nat` of octets (a Go string is
  an arbitrary byte sequence); every octet the code computes is reduced by `byte`;
* `len(x)` is `List.length`, `append(a, b...)` is `a ++ b`, `x[:i]` is `List.take`,
  `x[i:]` is `List.drop`, `h[i] = v` is `List.set`;
* a `uint32` argument is a `Nat`; theorems that read the value back assume it is
  below `2 ^ 32`;
* the Go result `([]byte, error)` is a pair of options, `none` standing for `nil`.
-/

namespace Http2

/-- A byte sequence: a Go `[]byte` or the bytes of a Go `string`. -/
abbrev Bytes := List Nat

/-- The Go conversion `byte(x)` of an integer: its low eight bits. -/
def byte (n : Nat) : Nat := n % 256

/-- The bytes `[]byte(s)` of a string literal of the source (its UTF-8 encoding). -/
def lit (s : String) : Bytes := s.toUTF8.data.toList.map UInt8.toNat

/-! ## Go's `strings.Index` and `strings.Contains` -/

/-- Position of the first occurrence of `substr` in a string, if there is one. -/
def firstIndex (substr : Bytes) : Bytes → Option Nat
  | [] => if substr.isEmpty then some 0 else none
  | c :: cs =>
    if substr.isPrefixOf (c :: cs) then some 0
    else (firstIndex substr cs).map (· + 1)

/-- Go's `strings.Index(s, substr)`: the index of the first occurrence of `substr`
in `s`, or `-1` when `substr` does not occur. -/
def stringsIndex (s substr : Bytes) : Int :=
  match firstIndex substr s with
  | some i => (i : Int)
  | none => -1

/-- Go's `strings.Contains(s, substr)`, which the library defines as
`Index(s, substr) >= 0`. -/
def stringsContains (s substr : Bytes) : Bool :=
  decide (0 ≤ stringsIndex s substr)

/-! ## `generateSettingsFrame` (lines 17-35) -/

/-- The source's `generateSettingsFrame`: a fixed header followed by a fixed payload. -/
def generateSettingsFrame : Bytes :=
  let header : Bytes := [
    0x00, 0x00, 0x18,
    0x04,
    0x00,
    0x00, 0x00, 0x00, 0x00]
  let payload : Bytes := [
    0x00, 0x02, 0x00, 0x00, 0x00, 0x00,
    0x00, 0x03, 0x00, 0x00, 0x03, 0xE8,
    0x00, 0x04, 0x00, 0x60, 0x00, 0x00,
    0x00, 0x08, 0x00, 0x00, 0x00, 0x01]
  header ++ payload

/-! ## `generateDataFrame` (lines 189-215) -/

/-- The source's `generateDataFrame`: a DATA frame header with the END_STREAM flag,
the stream id and the payload length written into it, followed by the payload. -/
def generateDataFrame (streamId : Nat) (data : Bytes) : Bytes :=
  let header : Bytes := [
    0x00, 0x00, 0x00,
    0x00,
    0x01,
    0x00, 0x00, 0x00, 0x00]
  let header := header.set 5 (byte (streamId >>> 24))
  let header := header.set 6 (byte (streamId >>> 16))
  let header := header.set 7 (byte (streamId >>> 8))
  let header := header.set 8 (byte streamId)
  let payload : Bytes := data
  let header := header.set 0 (byte (payload.length >>> 16))
  let header := header.set 1 (byte (payload.length >>> 8))
  let header := header.set 2 (byte payload.length)
  header ++ payload

/-! ## `generateWindowUpdateFrame` (lines 387-406) -/

/-- The source's `generateWindowUpdateFrame`. -/
def generateWindowUpdateFrame (streamId : Nat) : Bytes :=
  let header : Bytes := [
    0x00, 0x00, 0x04,
    0x08,
    0x00,
    0x00, 0x00, 0x00, 0x00]
  let header := header.set 5 (byte (streamId >>> 24))
  let header := header.set 6 (byte (streamId >>> 16))
  let header := header.set 7 (byte (streamId >>> 8))
  let header := header.set 8 (byte streamId)
  let payload : Bytes := [0x7F, 0x0F, 0xFF, 0xFF]
  header ++ payload

/-! ## `GenerateRequest` (lines 37-187) -/

/-- Lines 40-53 of `GenerateRequest`: the additional header is checked for `": "`
and split at its first occurrence. An empty additional header gives two empty
slices; a non-empty one without `": "` is the error return of line 46. -/
def splitAdditionalHeader (additionalHeader : Bytes) : Except String (Bytes × Bytes) :=
  let additionalHeaderName : Bytes := []
  let additionalHeaderValue : Bytes := []
  if additionalHeader ≠ [] then
    if !stringsContains additionalHeader (lit ": ") then
      Except.error "additional header does not contain a colon and space"
    else
      let additionalHeaderName :=
        additionalHeader.take (stringsIndex additionalHeader (lit ": ")).toNat
      let additionalHeaderValue :=
        additionalHeader.drop (stringsIndex additionalHeader (lit ": ") + 2).toNat
      Except.ok (additionalHeaderName, additionalHeaderValue)
  else
    Except.ok (additionalHeaderName, additionalHeaderValue)

/-- The five `withhold...` booleans of `GenerateRequest` (lines 56-60). -/
structure Withhold where
  withholdScheme : Bool
  withholdAuthority : Bool
  withholdPath : Bool
  withholdMethod : Bool
  withholdUserAgent : Bool
  deriving DecidableEq, Repr

/-- Lines 55-72 of `GenerateRequest`: all flags start `false` and the else-if chain
sets at most one of them. -/
def withholdFlags (customHeaderName : Bytes) : Withhold :=
  let w : Withhold := ⟨false, false, false, false, false⟩
  if customHeaderName.length ≥ 7 ∧ customHeaderName.take 7 = lit ":scheme" then
    { w with withholdScheme := true }
  else if customHeaderName.length ≥ 10 ∧ customHeaderName.take 10 = lit ":authority" then
    { w with withholdAuthority := true }
  else if customHeaderName.length ≥ 5 ∧ customHeaderName.take 5 = lit ":path" then
    { w with withholdPath := true }
  else if customHeaderName.length ≥ 7 ∧ customHeaderName.take 7 = lit ":method" then
    { w with withholdMethod := true }
  else if customHeaderName.length ≥ 10 ∧ customHeaderName.take 10 = lit "user-agent" then
    { w with withholdUserAgent := true }
  else
    w

/-- Lines 87-166 of `GenerateRequest`: the `payload` slice, grown by one `append`
after another. `UserAgentHeaderValue` is the package-level variable of that name,
declared outside `lib/http2.go`, taken here as a parameter. -/
def buildPayload (w : Withhold) (UserAgentHeaderValue hostname path customHeaderName
    custonHeaderValue requestMethod additionalHeader additionalHeaderName
    additionalHeaderValue : Bytes) : Bytes :=
  let payload : Bytes := []
  let payload := if !w.withholdScheme then payload ++ [0x87] else payload
  let payload :=
    if !w.withholdAuthority then
      let payload := payload ++ [0x41, byte hostname.length]
      payload ++ hostname
    else payload
  let payload :=
    if !w.withholdMethod then
      let methodHeader := [0x42, byte requestMethod.length] ++ requestMethod
      payload ++ methodHeader
    else payload
  let payload :=
    if !w.withholdPath then
      let pathHeader := [0x44, byte path.length] ++ path
      payload ++ pathHeader
    else payload
  let customHeader : Bytes := [0x40, byte customHeaderName.length]
  let customHeader := customHeader ++ customHeaderName
  let customHeader := customHeader ++ [byte custonHeaderValue.length]
  let customHeader := customHeader ++ custonHeaderValue
  let payload := payload ++ customHeader
  let payload :=
    if additionalHeader ≠ [] then
      let additionalCustomHeader : Bytes := [0x40, byte additionalHeaderName.length]
      let additionalCustomHeader := additionalCustomHeader ++ additionalHeaderName
      let additionalCustomHeader :=
        additionalCustomHeader ++ [byte additionalHeaderValue.length]
      let additionalCustomHeader := additionalCustomHeader ++ additionalHeaderValue
      payload ++ additionalCustomHeader
    else payload
  let payload :=
    if !w.withholdUserAgent then
      let userAgentHeader : Bytes := [0x40, byte (lit "user-agent").length]
      let userAgentHeader := userAgentHeader ++ lit "user-agent"
      let userAgentHeader := userAgentHeader ++ [byte UserAgentHeaderValue.length]
      let userAgentHeader := userAgentHeader ++ UserAgentHeaderValue
      payload ++ userAgentHeader
    else payload
  let acceptHeader : Bytes := [0x40, byte (lit "accept").length]
  let acceptHeader := acceptHeader ++ lit "accept"
  let acceptHeader := acceptHeader ++ [byte (lit "*/*").length]
  let acceptHeader := acceptHeader ++ lit "*/*"
  payload ++ acceptHeader

/-- The header block `GenerateRequest` builds for its arguments: the value of its
`payload` variable when line 166 has run (defined for a request that passes the
check of line 45; for one that does not, no block is built and this is `[]`). -/
def headerBlock (UserAgentHeaderValue hostname path customHeaderName custonHeaderValue
    requestMethod additionalHeader : Bytes) : Bytes :=
  match splitAdditionalHeader additionalHeader with
  | Except.error _ => []
  | Except.ok (additionalHeaderName, additionalHeaderValue) =>
    buildPayload (withholdFlags customHeaderName) UserAgentHeaderValue hostname path
      customHeaderName custonHeaderValue requestMethod additionalHeader
      additionalHeaderName additionalHeaderValue

/-- The source's `GenerateRequest`. The arguments come in the source's order, after
the package-level `UserAgentHeaderValue`. -/
def GenerateRequest (UserAgentHeaderValue : Bytes) (hostname path customHeaderName
    custonHeaderValue : Bytes) (streamId : Nat) (requestMethod additionalHeader
    customDataFrame : Bytes) : Option Bytes × Option String :=
  match splitAdditionalHeader additionalHeader with
  | Except.error e => (none, some e)
  | Except.ok (additionalHeaderName, additionalHeaderValue) =>
    let w := withholdFlags customHeaderName
    let header : Bytes := [
      0x00, 0x00, 0x00,
      0x01,
      0x04,
      0x00, 0x00, 0x00, 0x00]
    let header := header.set 5 (byte (streamId >>> 24))
    let header := header.set 6 (byte (streamId >>> 16))
    let header := header.set 7 (byte (streamId >>> 8))
    let header := header.set 8 (byte streamId)
    let payload := buildPayload w UserAgentHeaderValue hostname path customHeaderName
      custonHeaderValue requestMethod additionalHeader additionalHeaderName
      additionalHeaderValue
    let header := header.set 0 (byte (payload.length >>> 16))
    let header := header.set 1 (byte (payload.length >>> 8))
    let header := header.set 2 (byte payload.length)
    let header := header ++ payload
    let dataFrame := generateDataFrame streamId customDataFrame
    let header := header ++ dataFrame
    (some header, none)

/-- The bytes `GenerateRequest` returns, `[]` standing for the `nil` slice of the
error return. -/
def requestBytes (UserAgentHeaderValue hostname path customHeaderName custonHeaderValue :
    Bytes) (streamId : Nat) (requestMethod additionalHeader customDataFrame : Bytes) :
    Bytes :=
  (GenerateRequest UserAgentHeaderValue hostname path customHeaderName custonHeaderValue
    streamId requestMethod additionalHeader customDataFrame).1.getD []

/-- A request is valid when its additional header is empty or contains `": "`. -/
def ValidRequest (additionalHeader : Bytes) : Prop :=
  additionalHeader = [] ∨ stringsContains additionalHeader (lit ": ") = true

instance (additionalHeader : Bytes) : Decidable (ValidRequest additionalHeader) := by
  unfold ValidRequest; infer_instance

/-! ## The wire layout the claims are read against

These definitions are not code of `lib/http2.go`: they are the HTTP/2 frame layout
(a 9-byte header: 24-bit length, type, flags, a reserved bit and a 31-bit stream
id; then the payload) and the field encodings the specification words its
statements in. The theorems compare the builders above with them. -/

/-- The number a byte sequence denotes when read big-endian. -/
def beValue (bs : Bytes) : Nat := bs.foldl (fun acc b => acc * 256 + b) 0

/-- A frame as read off the wire. -/
structure Frame where
  length : Nat
  ftype : Nat
  flags : Nat
  streamId : Nat
  payload : Bytes
  deriving DecidableEq, Repr

/-- Reads one frame from the front of a byte sequence: nine header bytes, then as
many payload bytes as the length field says. The stream id is the low 31 bits of
the four id bytes (the high bit is reserved). Fails when fewer bytes are there. -/
def readFrame (bs : Bytes) : Option (Frame × Bytes) :=
  match bs with
  | l0 :: l1 :: l2 :: t :: f :: s0 :: s1 :: s2 :: s3 :: rest =>
    let n := beValue [l0, l1, l2]
    if n ≤ rest.length then
      some (⟨n, t, f, beValue [s0, s1, s2, s3] % 2 ^ 31, rest.take n⟩, rest.drop n)
    else none
  | _ => none

/-- Splits a byte sequence into frames, reading at most `fuel` of them; `none` when
bytes are left over that do not make a frame. -/
def splitFramesAux : Nat → Bytes → Option (List Frame)
  | _, [] => some []
  | 0, _ :: _ => none
  | fuel + 1, b :: bs =>
    match readFrame (b :: bs) with
    | none => none
    | some (fr, rest) => (splitFramesAux fuel rest).map (fr :: ·)

/-- Splits a byte sequence into frames. A frame takes at least nine bytes, so the
length of the sequence is fuel enough. -/
def splitFrames (bs : Bytes) : Option (List Frame) := splitFramesAux bs.length bs

/-- Reads a SETTINGS payload as a list of (16-bit identifier, 32-bit value) pairs,
six bytes each; `none` when the length is not a multiple of six. -/
def parseSettings : Bytes → Option (List (Nat × Nat))
  | [] => some []
  | i0 :: i1 :: v0 :: v1 :: v2 :: v3 :: rest =>
    (parseSettings rest).map ((beValue [i0, i1], beValue [v0, v1, v2, v3]) :: ·)
  | _ => none

/-- The default `:scheme` field: static-table entry 7, fully indexed. -/
def schemeField : Bytes := [0x87]

/-- A field that names a static-table entry by its prefix byte and carries a
literal value behind one length octet given by `octet`. -/
def indexedNameField (octet : Bytes → Nat) (pfx : Nat) (value : Bytes) : Bytes :=
  pfx :: octet value :: value

/-- A field with a literal name and a literal value, each behind one length octet
given by `octet`, after the prefix byte `0x40`. -/
def literalField (octet : Bytes → Nat) (name value : Bytes) : Bytes :=
  0x40 :: octet name :: (name ++ octet value :: value)

/-- The length octet the code writes: `byte(len(x))`. -/
def lenOctet (x : Bytes) : Nat := byte x.length

/-- The additional header's field: nothing when there is no additional header. -/
def optionalField (octet : Bytes → Nat) (additional : Option (Bytes × Bytes)) : Bytes :=
  match additional with
  | none => []
  | some (name, value) => literalField octet name value

/-- The header block as the specification lists it: the eight pieces in their fixed
order, a withheld or absent piece contributing nothing. `octet` says which number
stands in a length octet. -/
def orderedFields (octet : Bytes → Nat) (w : Withhold) (UserAgentHeaderValue hostname
    path customHeaderName custonHeaderValue requestMethod : Bytes)
    (additional : Option (Bytes × Bytes)) : Bytes :=
  (if w.withholdScheme then [] else schemeField) ++
  (if w.withholdAuthority then [] else indexedNameField octet 0x41 hostname) ++
  (if w.withholdMethod then [] else indexedNameField octet 0x42 requestMethod) ++
  (if w.withholdPath then [] else indexedNameField octet 0x44 path) ++
  literalField octet customHeaderName custonHeaderValue ++
  optionalField octet additional ++
  (if w.withholdUserAgent then []
    else literalField octet (lit "user-agent") UserAgentHeaderValue) ++
  literalField octet (lit "accept") (lit "*/*")

/-- The additional header as the specification sees it: absent when the string is
empty, otherwise the given name and value. -/
def additionalOf (additionalHeader name value : Bytes) : Option (Bytes × Bytes) :=
  if additionalHeader = [] then none else some (name, value)

/-! ## `HandleConnection` (lines 217-329)

The loop reads frames with `framer.ReadFrame` and switches on their Go type. The
framer and the HPACK decoder belong to `golang.org/x/net/http2`, outside the
repository: a frame is taken as the framer delivers it, and the decoder is a
parameter `hpackWrite` that maps a decoder state and a header block fragment to the
next decoder state and the header fields handed to the callback of line 222, in
order (the `Write` of line 250 followed by the `Close` of line 257; their errors are
only printed). A send on `*streamChan` appends the message to the list of sent
messages. The `fmt.Println` calls write to standard output, not to the channel, and
are left out. -/

/-- A frame as `framer.ReadFrame` returns it: its stream id (`frame.Header().StreamID`)
and what the loop reads of it. `OtherFrame` is every type the `switch` sends to
`default`. `data` is `Data()`, the payload without padding. A `GoAwayFrame` has no
stream id of its own: the framer returns one only for stream id 0 (see `readGoAway`). -/
inductive InFrame where
  | HeadersFrame (streamId flags : Nat) (headerBlockFragment : Bytes)
  | GoAwayFrame
  | RSTStreamFrame (streamId errCode : Nat)
  | DataFrame (streamId flags : Nat) (data : Bytes)
  | SettingsFrame (streamId : Nat)
  | OtherFrame (streamId : Nat)
  deriving DecidableEq, Repr

/-- What one call of `framer.ReadFrame` returns: a frame, `io.EOF`, or another error. -/
inductive ReadResult where
  | frame (f : InFrame)
  | eof
  | readError
  deriving DecidableEq, Repr

/-- What `framer.ReadFrame` returns when a GOAWAY frame arrives with the given stream
id. In `golang.org/x/net/http2` the frame is parsed by `parseGoAwayFrame`, which
returns a connection error when the stream id is not 0; only stream id 0 gives a
`*http2.GoAwayFrame`. -/
def readGoAway (streamId : Nat) : ReadResult :=
  if streamId = 0 then ReadResult.frame InFrame.GoAwayFrame else ReadResult.readError

/-- The `streamId` of line 245. -/
def InFrame.streamId : InFrame → Nat
  | InFrame.HeadersFrame sid _ _ => sid
  | InFrame.GoAwayFrame => 0
  | InFrame.RSTStreamFrame sid _ => sid
  | InFrame.DataFrame sid _ _ => sid
  | InFrame.SettingsFrame sid => sid
  | InFrame.OtherFrame sid => sid

/-- The fields of `ScanJob` the loop reads. `Conn` is `nil` (`none`) or a connection,
seen from the loop as the results of the successive `ReadFrame` calls. -/
structure ScanJob where
  Conn : Option (List ReadResult)
  StreamId : Nat
  Keyword : Bytes

/-- The local variables of `HandleConnection` (lines 220-229). A Go map read at a
missing key gives 0, so `streamContentCount` is a total function. The Go `int`
counter is a `Nat`: it only grows, by payload lengths. -/
structure LoopState (D : Type) where
  hpackstatus : Bytes
  hpackBody : Bytes
  streamContentCount : Nat → Nat
  hpackDecoder : D

/-- The names of `errCodeName` in `golang.org/x/net/http2`, indexed by error code. -/
def errCodeName : List String :=
  ["NO_ERROR", "PROTOCOL_ERROR", "INTERNAL_ERROR", "FLOW_CONTROL_ERROR", "SETTINGS_TIMEOUT",
   "STREAM_CLOSED", "FRAME_SIZE_ERROR", "REFUSED_STREAM", "CANCEL", "COMPRESSION_ERROR",
   "CONNECT_ERROR", "ENHANCE_YOUR_CALM", "INADEQUATE_SECURITY", "HTTP_1_1_REQUIRED"]

/-- The library's `ErrCode.String()`: the name of a known code, and
`fmt.Sprintf("unknown error code 0x%x", code)` for any other. -/
def ErrCodeString (e : Nat) : Bytes :=
  match errCodeName.get? e with
  | some s => lit s
  | none => lit "unknown error code 0x" ++ (Nat.toDigits 16 e).map Char.toNat

/-- The bytes of `fmt.Sprintf("%d", n)` for a non-negative `n`. -/
def sprintfD (n : Nat) : Bytes := (Nat.toDigits 10 n).map Char.toNat

/-- The callback of lines 222-226 run over the decoded fields: the last `:status`
value is kept. -/
def retainStatus (hpackstatus : Bytes) (fields : List (Bytes × Bytes)) : Bytes :=
  fields.foldl (fun st hf => if hf.1 = lit ":status" then hf.2 else st) hpackstatus

/-- One turn of the loop body after a successful read (lines 245-325): the next
state, the messages sent on the channel, and whether the loop goes on (`false` is
the `return` of line 278). -/
def handleFrame {D : Type} (hpackWrite : D → Bytes → D × List (Bytes × Bytes))
    (scanJob : ScanJob) (s : LoopState D) (frame : InFrame) :
    LoopState D × List Bytes × Bool :=
  let streamId := frame.streamId
  match frame with
  | InFrame.HeadersFrame _ flags headerBlockFragment =>
    let decoded := hpackWrite s.hpackDecoder headerBlockFragment
    let s := { s with
      hpackDecoder := decoded.1, hpackstatus := retainStatus s.hpackstatus decoded.2 }
    if flags = 0x5 then
      if streamId = scanJob.StreamId then
        (s, [lit "SUCCESS [" ++ s.hpackstatus ++ lit "] Length: 0"], true)
      else (s, [], true)
    else (s, [], true)
  | InFrame.GoAwayFrame => (s, [lit "GOAWAY"], false)
  | InFrame.RSTStreamFrame _ errCode =>
    let errorCode := ErrCodeString errCode
    if streamId = scanJob.StreamId ∧ errorCode ≠ lit "NO_ERROR" then
      (s, [lit "RST_STREAM: " ++ errorCode], true)
    else (s, [], true)
  | InFrame.DataFrame _ flags data =>
    let size := data.length
    let s := { s with streamContentCount := fun k =>
      if k = streamId then s.streamContentCount k + size else s.streamContentCount k }
    let s := { s with hpackBody := s.hpackBody ++ data }
    if flags = 0x1 then
      let sent :=
        if streamId = scanJob.StreamId then
          if scanJob.Keyword ≠ [] then
            if stringsContains s.hpackBody scanJob.Keyword then
              [lit "SUCCESS [" ++ s.hpackstatus ++ lit "] - Keyword: True - Length: " ++
                sprintfD (s.streamContentCount streamId)]
            else
              [lit "SUCCESS [" ++ s.hpackstatus ++ lit "] - Keyword: False - Length: " ++
                sprintfD (s.streamContentCount streamId)]
          else
            [lit "SUCCESS [" ++ s.hpackstatus ++ lit "] Length: " ++
              sprintfD (s.streamContentCount streamId)]
        else []
      ({ s with hpackBody := [] }, sent, true)
    else (s, [], true)
  | InFrame.SettingsFrame _ => (s, [], true)
  | InFrame.OtherFrame _ => (s, [], true)

/-- The `for` loop of lines 231-327 over the results of the successive reads: the
last state, the messages sent, and whether the loop is still running (blocked in
`ReadFrame` once the given results are used up) or has returned. -/
def handleLoop {D : Type} (hpackWrite : D → Bytes → D × List (Bytes × Bytes))
    (scanJob : ScanJob) : LoopState D → List ReadResult → LoopState D × List Bytes × Bool
  | s, [] => (s, [], true)
  | s, ReadResult.eof :: _ => (s, [], false)
  | s, ReadResult.readError :: _ => (s, [], false)
  | s, ReadResult.frame f :: rest =>
    let r := handleFrame hpackWrite scanJob s f
    if r.2.2 then
      let r2 := handleLoop hpackWrite scanJob r.1 rest
      (r2.1, r.2.1 ++ r2.2.1, r2.2.2)
    else (r.1, r.2.1, false)

/-- The state the loop starts from (lines 220-229); `hpackDecoder` is the decoder
`hpack.NewDecoder` returns. -/
def initialState {D : Type} (hpackDecoder : D) : LoopState D :=
  { hpackstatus := [], hpackBody := [], streamContentCount := fun _ => 0,
    hpackDecoder := hpackDecoder }

/-- The source's `HandleConnection`. With a `nil` connection the loop condition of
line 231 fails at once. -/
def HandleConnection {D : Type} (hpackWrite : D → Bytes → D × List (Bytes × Bytes))
    (hpackDecoder : D) (scanJob : ScanJob) : LoopState D × List Bytes × Bool :=
  match scanJob.Conn with
  | none => (initialState hpackDecoder, [], false)
  | some reads => handleLoop hpackWrite scanJob (initialState hpackDecoder) reads

/-! ## `SendCustomFrame`, `sendMagicReq`, `EstablishH2Connection` (lines 331-385)

The connection is a writer: `fails i` is the error of the write call number `i` on
it (counted from 0), `none` when that call succeeds; a successful call appends its
bytes, a failed one appends nothing. -/

/-- A `*tls.Conn` seen as a writer: the bytes written so far and the arguments of
the `Write` calls issued so far. -/
structure TlsConn where
  written : Bytes
  calls : List Bytes
  deriving DecidableEq, Repr

/-- The call `conn.Write(p)`: the connection afterwards and the error returned. -/
def connWrite (fails : Nat → Option String) (conn : TlsConn) (p : Bytes) :
    TlsConn × Option String :=
  match fails conn.calls.length with
  | none => ({ written := conn.written ++ p, calls := conn.calls ++ [p] }, none)
  | some e => ({ conn with calls := conn.calls ++ [p] }, some e)

/-- The source's `SendCustomFrame`. -/
def SendCustomFrame (fails : Nat → Option String) (frame : Bytes) (conn : Option TlsConn) :
    Option TlsConn × Option String :=
  match conn with
  | none => (none, some "connection is nil")
  | some c =>
    let r := connWrite fails c frame
    if r.2 ≠ none then (some r.1, r.2) else (some r.1, none)

/-- The source's `sendMagicReq`. -/
def sendMagicReq (fails : Nat → Option String) (conn : Option TlsConn) :
    Option TlsConn × Option String :=
  match conn with
  | none => (none, some "connection is nil")
  | some c =>
    let r := connWrite fails c (lit "PRI * HTTP/2.0\r\n\r\nSM\r\n\r\n")
    if r.2 ≠ none then (some r.1, r.2) else (some r.1, none)

/-- The source's `EstablishH2Connection`: the connection afterwards and the error
returned. -/
def EstablishH2Connection (fails : Nat → Option String) (conn : Option TlsConn) :
    Option TlsConn × Option String :=
  let r := sendMagicReq fails conn
  if r.2 ≠ none then r
  else
    let r := SendCustomFrame fails generateSettingsFrame r.1
    if r.2 ≠ none then r
    else
      let r := SendCustomFrame fails (generateWindowUpdateFrame 0x00) r.1
      if r.2 ≠ none then r
      else (r.1, none)

/-! ## The readings the classifier and decoder claims are stated against

As above, these are not code of `lib/http2.go`. -/

/-- The DATA frame with the given stream id, flags byte and payload. -/
def dataFrame (t : Nat × Nat × Bytes) : InFrame := InFrame.DataFrame t.1 t.2.1 t.2.2

/-- Whether a frame is a GOAWAY frame. -/
def InFrame.isGoAway : InFrame → Bool
  | InFrame.GoAwayFrame => true
  | _ => false

/-- The reads of a connection that delivers the given frames one after the other. -/
def framesRead (frames : List InFrame) : List ReadResult := frames.map ReadResult.frame

/-- The run of `HandleConnection` for a job with the given target stream id and
keyword, on a connection that delivers the given frames and then has nothing more
to read: the last state, the messages sent, and whether the loop is still running. -/
def classify {D : Type} (hpackWrite : D → Bytes → D × List (Bytes × Bytes))
    (hpackDecoder : D) (target : Nat) (keyword : Bytes) (frames : List InFrame) :
    LoopState D × List Bytes × Bool :=
  HandleConnection hpackWrite hpackDecoder
    { Conn := some (framesRead frames), StreamId := target, Keyword := keyword }

/-- A decoder that hands no field to the callback, for runs without HEADERS frames. -/
def noFields : Unit → Bytes → Unit × List (Bytes × Bytes) := fun _ _ => ((), [])

/-- The payload a frame adds to a stream: the data of a DATA frame on that stream,
nothing otherwise. -/
def dataOn (streamId : Nat) : InFrame → Bytes
  | InFrame.DataFrame sid _ data => if sid = streamId then data else []
  | _ => []

/-- The payload of a DATA frame on any stream, nothing for another frame. -/
def dataOf : InFrame → Bytes
  | InFrame.DataFrame _ _ data => data
  | _ => []

/-- The number of payload bytes of the DATA frames of a sequence on one stream. -/
def bytesOn (streamId : Nat) (frames : List InFrame) : Nat :=
  (frames.map fun f => (dataOn streamId f).length).sum

/-- A DATA frame whose flags byte is exactly END_STREAM (`0x1`). -/
def isEndData : InFrame → Bool
  | InFrame.DataFrame _ flags _ => decide (flags = 0x1)
  | _ => false

/-- A DATA frame on the given stream whose flags byte is exactly END_STREAM. -/
def isEndDataOn (streamId : Nat) : InFrame → Bool
  | InFrame.DataFrame sid flags _ => decide (sid = streamId ∧ flags = 0x1)
  | _ => false

/-- The frames of a sequence that come after the last one satisfying `p` (all of
them when none does). -/
def afterLast (p : InFrame → Bool) (frames : List InFrame) : List InFrame :=
  (frames.reverse.takeWhile fun f => !p f).reverse

/-- The body of one stream as the specification accumulates it: the payloads of the
DATA frames on that stream received since the stream's last END_STREAM DATA frame. -/
def ownBody (streamId : Nat) (frames : List InFrame) : Bytes :=
  ((afterLast (isEndDataOn streamId) frames).map (dataOn streamId)).flatten

/-- The body as the loop accumulates it: the payloads of the DATA frames on every
stream received since the last END_STREAM DATA frame on any stream. -/
def sharedBody (frames : List InFrame) : Bytes :=
  ((afterLast isEndData frames).map dataOf).flatten

/-- A string literal of HPACK with a one-octet length and the Huffman bit clear:
the length octet is at most 126 and that many bytes follow. Gives the literal and
the bytes after it. -/
def readLiteral : Bytes → Option (Bytes × Bytes)
  | [] => none
  | l :: rest => if l ≤ 126 ∧ l ≤ rest.length then some (rest.take l, rest.drop l) else none

/-- One header field of the static/literal-only decoder: `0x87` is the indexed
static entry 7; `0x41`, `0x42`, `0x44` are literals with incremental indexing that
name the static entries 1, 2 and 4; `0x40` is a literal with a new name. Any other
first byte is not decoded. -/
def decodeField : Bytes → Option ((Bytes × Bytes) × Bytes)
  | [] => none
  | b :: rest =>
    if b = 0x87 then some ((lit ":scheme", lit "https"), rest)
    else if b = 0x41 then
      (readLiteral rest).map fun r => ((lit ":authority", r.1), r.2)
    else if b = 0x42 then
      (readLiteral rest).map fun r => ((lit ":method", r.1), r.2)
    else if b = 0x44 then
      (readLiteral rest).map fun r => ((lit ":path", r.1), r.2)
    else if b = 0x40 then
      (readLiteral rest).bind fun n =>
        (readLiteral n.2).map fun v => ((n.1, v.1), v.2)
    else none

/-- Decodes at most `fuel` fields; `none` when bytes are left that do not decode. -/
def decodeBlockAux : Nat → Bytes → Option (List (Bytes × Bytes))
  | _, [] => some []
  | 0, _ :: _ => none
  | fuel + 1, b :: bs =>
    match decodeField (b :: bs) with
    | none => none
    | some (field, rest) => (decodeBlockAux fuel rest).map (field :: ·)

/-- Decodes a whole header block into its ordered field list. A field takes at
least one byte, so the length of the block is fuel enough. -/
def decodeBlock (bs : Bytes) : Option (List (Bytes × Bytes)) := decodeBlockAux bs.length bs

/-- A stateless decoder for runs with HEADERS frames: the fields `decodeBlock` reads
from the fragment, none when the fragment does not decode. -/
def staticDecoder : Unit → Bytes → Unit × List (Bytes × Bytes) :=
  fun _ fragment => ((), (decodeBlock fragment).getD [])

/-! # Theorems -/

/-! ## Auxiliary lemmas -/

/-- The separator `": "` as bytes. -/
theorem lit_sep : lit ": " = [58, 32] := by decide

/-- The token `":scheme"` as bytes. -/
theorem lit_scheme : lit ":scheme" = [58, 115, 99, 104, 101, 109, 101] := by decide

/-- The token `":authority"` as bytes. -/
theorem lit_authority : lit ":authority" = [58, 97, 117, 116, 104, 111, 114, 105, 116, 121] := by decide

/-- The token `":path"` as bytes. -/
theorem lit_path : lit ":path" = [58, 112, 97, 116, 104] := by decide

/-- The token `":method"` as bytes. -/
theorem lit_method : lit ":method" = [58, 109, 101, 116, 104, 111, 100] := by decide

/-- The name `"user-agent"` as bytes. -/
theorem lit_userAgent : lit "user-agent" = [117, 115, 101, 114, 45, 97, 103, 101, 110, 116] := by decide

/-- The name `"accept"` as bytes. -/
theorem lit_accept : lit "accept" = [97, 99, 99, 101, 112, 116] := by decide

/-- The value `"*/*"` as bytes. -/
theorem lit_star : lit "*/*" = [42, 47, 42] := by decide

/-- A first occurrence exists exactly when the separator is a contiguous part of the string. -/
theorem firstIndex_isSome_iff (sep s : Bytes) :
    (firstIndex sep s).isSome = true ↔ sep <:+: s := by
  induction s with
  | nil =>
    cases sep <;> simp [firstIndex]
  | cons c cs ih =>
    rw [firstIndex, List.infix_cons_iff]
    by_cases hp : sep.isPrefixOf (c :: cs) = true
    · simp [hp, List.isPrefixOf_iff_prefix.mp hp]
    · have hp2 : ¬ sep <+: c :: cs := fun h => hp (List.isPrefixOf_iff_prefix.mpr h)
      simp [hp, hp2, ← ih]

/-- The model of `strings.Contains` decides the substring relation. -/
theorem stringsContains_iff (s sep : Bytes) :
    stringsContains s sep = true ↔ sep <:+: s := by
  rw [← firstIndex_isSome_iff]
  unfold stringsContains stringsIndex
  cases firstIndex sep s <;> simp

/-- Cutting a string at the first occurrence of a non-empty separator: the three parts
put together give the string back, and the part before has no occurrence. -/
theorem firstIndex_split (sep : Bytes) (hsep : sep ≠ []) :
    ∀ (s : Bytes) (i : Nat), firstIndex sep s = some i →
      s.take i ++ sep ++ s.drop (i + sep.length) = s ∧ firstIndex sep (s.take i) = none := by
  intro s
  induction s with
  | nil =>
    intro i h
    cases sep with
    | nil => exact absurd rfl hsep
    | cons a as => simp [firstIndex] at h
  | cons c cs ih =>
    intro i h
    rw [firstIndex] at h
    by_cases hp : sep.isPrefixOf (c :: cs) = true
    · simp only [hp, if_true, Option.some.injEq] at h
      subst h
      obtain ⟨t, ht⟩ := List.isPrefixOf_iff_prefix.mp hp
      constructor
      · rw [← ht]; simp
      · cases sep with
        | nil => exact absurd rfl hsep
        | cons a as => simp [firstIndex]
    · simp only [hp, Bool.false_eq_true, if_false, Option.map_eq_some'] at h
      obtain ⟨j, hj, rfl⟩ := h
      obtain ⟨h1, h2⟩ := ih j hj
      constructor
      · simp only [List.take_succ_cons, List.cons_append]
        rw [show j + 1 + sep.length = (j + sep.length) + 1 by omega, List.drop_succ_cons]
        exact congrArg (c :: ·) h1
      · rw [List.take_succ_cons, firstIndex, h2]
        have : ¬ sep.isPrefixOf (c :: List.take j cs) = true := by
          intro hq
          apply hp
          rw [List.isPrefixOf_iff_prefix] at hq ⊢
          exact hq.trans ((List.prefix_cons_inj c).mpr (List.take_prefix j cs))
        simp [this]

/-- An empty additional header is accepted and gives an empty name and value. -/
theorem splitAdditionalHeader_nil : splitAdditionalHeader [] = Except.ok ([], []) := by
  simp [splitAdditionalHeader]

/-- A non-empty additional header without `": "` is the error return. -/
theorem splitAdditionalHeader_error (ah : Bytes) (h1 : ah ≠ [])
    (h2 : stringsContains ah (lit ": ") = false) :
    splitAdditionalHeader ah =
      Except.error "additional header does not contain a colon and space" := by
  simp [splitAdditionalHeader, h1, h2]

/-- A non-empty additional header with `": "` is cut at the first occurrence. -/
theorem splitAdditionalHeader_ok (ah : Bytes) (h1 : ah ≠ [])
    (h2 : stringsContains ah (lit ": ") = true) :
    ∃ i, firstIndex (lit ": ") ah = some i ∧
      splitAdditionalHeader ah = Except.ok (ah.take i, ah.drop (i + 2)) := by
  have h3 := h2
  unfold stringsContains stringsIndex at h3
  cases hf : firstIndex (lit ": ") ah with
  | none => simp [hf] at h3
  | some i =>
    refine ⟨i, rfl, ?_⟩
    have e : ((i : Int) + 2).toNat = i + 2 := by omega
    simp [splitAdditionalHeader, h1, h2, stringsIndex, hf, e]

/-- Every valid request passes the check of lines 43-47. -/
theorem splitAdditionalHeader_valid (ah : Bytes) (hv : ValidRequest ah) :
    ∃ n v, splitAdditionalHeader ah = Except.ok (n, v) := by
  by_cases h1 : ah = []
  · subst h1; exact ⟨[], [], splitAdditionalHeader_nil⟩
  · rcases hv with h | h
    · exact absurd h h1
    · obtain ⟨i, _, hi⟩ := splitAdditionalHeader_ok ah h1 h
      exact ⟨_, _, hi⟩

/-- Each flag of the else-if chain is set exactly when the name starts with its token. -/
theorem withholdFlags_cases (cn : Bytes) : 
  ((withholdFlags cn).withholdScheme = true ↔ lit ":scheme" <+: cn) ∧
  ((withholdFlags cn).withholdAuthority = true ↔ lit ":authority" <+: cn) ∧
  ((withholdFlags cn).withholdMethod = true ↔ lit ":method" <+: cn) ∧
  ((withholdFlags cn).withholdPath = true ↔ lit ":path" <+: cn) ∧
  ((withholdFlags cn).withholdUserAgent = true ↔ lit "user-agent" <+: cn) := by
  have key : ∀ (tok : Bytes) (k : Nat), tok.length = k →
      ((cn.length ≥ k ∧ cn.take k = tok) ↔ tok <+: cn) := by
    intro tok k hk
    subst hk
    constructor
    · rintro ⟨_, h⟩; rw [← h]; exact List.take_prefix _ _
    · intro h
      exact ⟨h.length_le, (List.prefix_iff_eq_take.mp h).symm⟩
  have k1 := key (lit ":scheme") 7 (by decide)
  have k2 := key (lit ":authority") 10 (by decide)
  have k3 := key (lit ":path") 5 (by decide)
  have k4 := key (lit ":method") 7 (by decide)
  have k5 := key (lit "user-agent") 10 (by decide)
  have excl : ∀ (a b : Bytes), ¬ a <+: b → ¬ b <+: a → a <+: cn → ¬ b <+: cn := by
    intro a b hab hba ha hb
    rcases List.prefix_or_prefix_of_prefix ha hb with h | h
    · exact hab h
    · exact hba h
  have e12 := excl (lit ":scheme") (lit ":authority") (by decide) (by decide)
  have e13 := excl (lit ":scheme") (lit ":path") (by decide) (by decide)
  have e14 := excl (lit ":scheme") (lit ":method") (by decide) (by decide)
  have e15 := excl (lit ":scheme") (lit "user-agent") (by decide) (by decide)
  have e23 := excl (lit ":authority") (lit ":path") (by decide) (by decide)
  have e24 := excl (lit ":authority") (lit ":method") (by decide) (by decide)
  have e25 := excl (lit ":authority") (lit "user-agent") (by decide) (by decide)
  have e34 := excl (lit ":path") (lit ":method") (by decide) (by decide)
  have e35 := excl (lit ":path") (lit "user-agent") (by decide) (by decide)
  have e45 := excl (lit ":method") (lit "user-agent") (by decide) (by decide)
  unfold withholdFlags
  simp only [k1, k2, k3, k4, k5]
  split_ifs <;> simp_all

/-- The three length bytes the builders write denote the length modulo `2 ^ 24`. -/
theorem beValue_three (n : Nat) :
    beValue [byte (n >>> 16), byte (n >>> 8), byte n] = n % 2 ^ 24 := by
  simp only [beValue, byte, List.foldl, Nat.shiftRight_eq_div_pow]
  omega

/-- The four stream-id bytes the builders write denote the id modulo `2 ^ 32`. -/
theorem beValue_four (n : Nat) :
    beValue [byte (n >>> 24), byte (n >>> 16), byte (n >>> 8), byte n] = n % 2 ^ 32 := by
  simp only [beValue, byte, List.foldl, Nat.shiftRight_eq_div_pow]
  omega

/-- The DATA frame with the `header[i] = ...` assignments carried out. -/
theorem generateDataFrame_eq (sid : Nat) (data : Bytes) :
    generateDataFrame sid data =
      [byte (data.length >>> 16), byte (data.length >>> 8), byte data.length, 0x00, 0x01,
        byte (sid >>> 24), byte (sid >>> 16), byte (sid >>> 8), byte sid] ++ data := by
  simp [generateDataFrame, List.set]

/-- The WINDOW_UPDATE frame with the `header[i] = ...` assignments carried out. -/
theorem generateWindowUpdateFrame_eq (sid : Nat) :
    generateWindowUpdateFrame sid =
      [0x00, 0x00, 0x04, 0x08, 0x00,
        byte (sid >>> 24), byte (sid >>> 16), byte (sid >>> 8), byte sid,
        0x7F, 0x0F, 0xFF, 0xFF] := by
  simp [generateWindowUpdateFrame, List.set]

/-- The `payload` slice after its run of appends is the ordered list of fields. -/
theorem buildPayload_eq (w : Withhold) (ua h p cn cv m ah n v : Bytes) :
    buildPayload w ua h p cn cv m ah n v =
      orderedFields lenOctet w ua h p cn cv m (additionalOf ah n v) := by
  obtain ⟨a, b, c, d, e⟩ := w
  by_cases hah : ah = []
  · cases a <;> cases b <;> cases c <;> cases d <;> cases e <;>
      simp [buildPayload, orderedFields, additionalOf, optionalField, hah, schemeField, indexedNameField,
        literalField, lenOctet]
  · cases a <;> cases b <;> cases c <;> cases d <;> cases e <;>
      simp [buildPayload, orderedFields, additionalOf, optionalField, hah, schemeField, indexedNameField,
        literalField, lenOctet]

/-- The success return of `GenerateRequest`: frame header, header block, DATA frame. -/
theorem GenerateRequest_eq (ua h p cn cv : Bytes) (sid : Nat) (m ah body n v : Bytes)
    (hs : splitAdditionalHeader ah = Except.ok (n, v)) :
    GenerateRequest ua h p cn cv sid m ah body =
      (some ([byte ((headerBlock ua h p cn cv m ah).length >>> 16),
              byte ((headerBlock ua h p cn cv m ah).length >>> 8),
              byte (headerBlock ua h p cn cv m ah).length, 0x01, 0x04,
              byte (sid >>> 24), byte (sid >>> 16), byte (sid >>> 8), byte sid]
            ++ headerBlock ua h p cn cv m ah ++ generateDataFrame sid body), none) := by
  simp [GenerateRequest, headerBlock, hs, List.set]

/-- The header block of an accepted request is the ordered list of fields. -/
theorem headerBlock_eq (ua h p cn cv m ah n v : Bytes)
    (hs : splitAdditionalHeader ah = Except.ok (n, v)) :
    headerBlock ua h p cn cv m ah =
      orderedFields lenOctet (withholdFlags cn) ua h p cn cv m (additionalOf ah n v) := by
  simp [headerBlock, hs, buildPayload_eq]

/-- The bytes returned for a valid request. -/
theorem requestBytes_eq (ua h p cn cv : Bytes) (sid : Nat) (m ah body : Bytes)
    (hv : ValidRequest ah) :
    requestBytes ua h p cn cv sid m ah body =
      [byte ((headerBlock ua h p cn cv m ah).length >>> 16),
              byte ((headerBlock ua h p cn cv m ah).length >>> 8),
              byte (headerBlock ua h p cn cv m ah).length, 0x01, 0x04,
              byte (sid >>> 24), byte (sid >>> 16), byte (sid >>> 8), byte sid]
            ++ headerBlock ua h p cn cv m ah ++ generateDataFrame sid body := by
  obtain ⟨n, v, hs⟩ := splitAdditionalHeader_valid ah hv
  simp [requestBytes, GenerateRequest_eq ua h p cn cv sid m ah body n v hs]

/-- The model run on a small request: host `a.io`, path `/`, custom header `:path: /x`,
stream 3, method `GET`, additional header `a: b`, body `hi`, user-agent value `sf`. -/
theorem GenerateRequest_sample :
    GenerateRequest (lit "sf") (lit "a.io") (lit "/") (lit ":path") (lit "/x") 3 (lit "GET")
        (lit "a: b") (lit "hi") =
      (some [0, 0, 54, 1, 4, 0, 0, 0, 3,
          135, 65, 4, 97, 46, 105, 111, 66, 3, 71, 69, 84,
          64, 5, 58, 112, 97, 116, 104, 2, 47, 120, 64, 1, 97, 1, 98,
          64, 10, 117, 115, 101, 114, 45, 97, 103, 101, 110, 116, 2, 115, 102,
          64, 6, 97, 99, 99, 101, 112, 116, 3, 42, 47, 42,
          0, 0, 2, 0, 1, 0, 0, 0, 3, 104, 105], none) := by
  decide

/-- The number of bytes returned for a valid request. -/
theorem requestBytes_length (ua h p cn cv : Bytes) (sid : Nat) (m ah body : Bytes)
    (hv : ValidRequest ah) :
    (requestBytes ua h p cn cv sid m ah body).length =
      9 + (headerBlock ua h p cn cv m ah).length + (9 + body.length) := by
  rw [requestBytes_eq ua h p cn cv sid m ah body hv, generateDataFrame_eq]
  simp
  omega

/-- What follows the HEADERS frame in the output is the DATA frame. -/
theorem requestBytes_drop (ua h p cn cv : Bytes) (sid : Nat) (m ah body : Bytes)
    (hv : ValidRequest ah) :
    (requestBytes ua h p cn cv sid m ah body).drop
      (9 + (headerBlock ua h p cn cv m ah).length) = generateDataFrame sid body := by
  rw [requestBytes_eq ua h p cn cv sid m ah body hv, List.append_assoc,
    List.drop_append_eq_append_drop]
  simp

/-- Reading back a frame whose header was written by the builders, when the payload
length fits 24 bits and the stream id 31 bits. -/
theorem readFrame_built (len t f sid : Nat) (payload rest : Bytes)
    (hlen : payload.length = len) (h24 : len < 2 ^ 24) (h31 : sid < 2 ^ 31) :
    readFrame ([byte (len >>> 16), byte (len >>> 8), byte len, t, f,
        byte (sid >>> 24), byte (sid >>> 16), byte (sid >>> 8), byte sid] ++ payload ++ rest) =
      some (⟨len, t, f, sid, payload⟩, rest) := by
  have e3 : beValue [byte (len >>> 16), byte (len >>> 8), byte len] = len := by
    rw [beValue_three]; omega
  have e4 : beValue [byte (sid >>> 24), byte (sid >>> 16), byte (sid >>> 8), byte sid] % 2 ^ 31
      = sid := by
    rw [beValue_four]; omega
  simp only [List.cons_append, List.nil_append, readFrame, e3, e4]
  subst hlen
  simp

/-- Two frames read one after the other, nothing left. -/
theorem splitFramesAux_two (fuel : Nat) (bs r1 : Bytes) (f1 f2 : Frame)
    (h1 : readFrame bs = some (f1, r1)) (h2 : readFrame r1 = some (f2, [])) :
    splitFramesAux (fuel + 2) bs = some [f1, f2] := by
  cases bs with
  | nil => simp [readFrame] at h1
  | cons b bs =>
    cases r1 with
    | nil => simp [readFrame] at h2
    | cons c cs =>
      simp [splitFramesAux, h1, h2]

/-- One frame read, nothing left. -/
theorem splitFramesAux_one (fuel : Nat) (bs : Bytes) (f1 : Frame)
    (h1 : readFrame bs = some (f1, [])) :
    splitFramesAux (fuel + 1) bs = some [f1] := by
  cases bs with
  | nil => simp [readFrame] at h1
  | cons b bs => simp [splitFramesAux, h1]

/-- Reading back the output of `generateDataFrame`. -/
theorem readFrame_dataFrame (sid : Nat) (body : Bytes) (h24 : body.length < 2 ^ 24)
    (h31 : sid < 2 ^ 31) :
    readFrame (generateDataFrame sid body) = some (⟨body.length, 0x0, 0x1, sid, body⟩, []) := by
  rw [generateDataFrame_eq]
  have := readFrame_built body.length 0 1 sid body [] rfl h24 h31
  simpa using this

/-- With a hostname of `2 ^ 24` bytes the header block has `2 ^ 24 + 57` bytes and the
length field reads 57. -/
theorem oversized_block (host : Bytes) (hhost : host.length = 16777216) :
    ValidRequest [] ∧
    (GenerateRequest (lit "smugglefuzz") host (lit "/") (lit "x-test")
      (lit "1") 1 (lit "GET") [] []).2 = none ∧
    beValue ((requestBytes (lit "smugglefuzz") host (lit "/")
      (lit "x-test") (lit "1") 1 (lit "GET") [] []).take 3) = 57 ∧
    (requestBytes (lit "smugglefuzz") host (lit "/")
      (lit "x-test") (lit "1") 1 (lit "GET") [] []).length - 9 - (9 + 0) = 16777273 := by
  have hv : ValidRequest [] := Or.inl rfl
  have hw : withholdFlags (lit "x-test") = ⟨false, false, false, false, false⟩ := by decide
  have hl : (headerBlock (lit "smugglefuzz") host (lit "/")
      (lit "x-test") (lit "1") (lit "GET") []).length = 16777273 := by
    rw [headerBlock_eq _ _ _ _ _ _ _ _ _ splitAdditionalHeader_nil, hw]
    have e1 : lit "smugglefuzz" = [115, 109, 117, 103, 103, 108, 101, 102, 117, 122, 122] := by
      decide
    have e2 : lit "/" = [47] := by decide
    have e3 : lit "x-test" = [120, 45, 116, 101, 115, 116] := by decide
    have e4 : lit "1" = [49] := by decide
    have e5 : lit "GET" = [71, 69, 84] := by decide
    simp [orderedFields, additionalOf, optionalField, schemeField, indexedNameField, literalField, e1, e2, e3,
      e4, e5, lit_userAgent, lit_accept, lit_star, hhost]
  refine ⟨hv, ?_, ?_, ?_⟩
  · rw [GenerateRequest_eq _ _ _ _ _ _ _ _ _ _ _ splitAdditionalHeader_nil]
  · rw [requestBytes_eq _ _ _ _ _ _ _ _ _ hv, hl]
    simp only [List.cons_append, List.take_succ_cons, List.take_zero]
    rw [beValue_three]
    rfl
  · rw [requestBytes_length _ _ _ _ _ _ _ _ _ hv, hl]
    rfl

/-- With a hostname of 256 bytes the octet written before it is 0. -/
theorem long_literal_octet (host : Bytes) (hhost : host.length = 256) :
    (headerBlock (lit "smugglefuzz") host (lit "/") (lit "x-test") (lit "1") (lit "GET")
      []).take 2 = [0x87, 0x41] ∧
    (headerBlock (lit "smugglefuzz") host (lit "/") (lit "x-test") (lit "1") (lit "GET")
      []).get? 2 = some 0 ∧
    ((headerBlock (lit "smugglefuzz") host (lit "/") (lit "x-test") (lit "1") (lit "GET")
      []).drop 3).take 256 = host := by
  have hw : withholdFlags (lit "x-test") = ⟨false, false, false, false, false⟩ := by decide
  rw [headerBlock_eq _ _ _ _ _ _ _ _ _ splitAdditionalHeader_nil, hw]
  simp [orderedFields, schemeField, indexedNameField, lenOctet, byte, hhost]

/-- With every literal shorter than 256 bytes the length octets are the lengths. -/
theorem orderedFields_octets (w : Withhold) (ua h p cn cv m : Bytes)
    (additional : Option (Bytes × Bytes))
    (hh : h.length < 256) (hm : m.length < 256) (hp : p.length < 256)
    (hcn : cn.length < 256) (hcv : cv.length < 256) (hua : ua.length < 256)
    (hadd : ∀ nv ∈ additional, nv.1.length < 256 ∧ nv.2.length < 256) :
    orderedFields lenOctet w ua h p cn cv m additional =
      orderedFields List.length w ua h p cn cv m additional := by
  have e : ∀ x : Bytes, x.length < 256 → lenOctet x = x.length := by
    intro x hx
    exact Nat.mod_eq_of_lt hx
  have e1 : lenOctet (lit "user-agent") = (lit "user-agent").length := by decide
  have e2 : lenOctet (lit "accept") = (lit "accept").length := by decide
  have e3 : lenOctet (lit "*/*") = (lit "*/*").length := by decide
  unfold orderedFields indexedNameField literalField optionalField
  rw [e h hh, e m hm, e p hp, e cn hcn, e cv hcv, e ua hua, e1, e2, e3]
  cases additional with
  | none => rfl
  | some nv =>
    obtain ⟨h1, h2⟩ := hadd nv rfl
    simp [literalField, e _ h1, e _ h2]

/-! ## Claim C1 -/

/-- Claim C1, as stated, fails: for the valid request with a hostname of `2 ^ 24` bytes
(`"a"` repeated), path `"/"`, custom header `x-test: 1`, stream 1, method `GET`, no
additional header and an empty body, `GenerateRequest` succeeds, `16777273` header-block
bytes follow the frame header, and the 24-bit length field reads `57`. -/
theorem C1_counterexample :
    ValidRequest [] ∧
    (GenerateRequest (lit "smugglefuzz") (List.replicate 16777216 97) (lit "/") (lit "x-test")
      (lit "1") 1 (lit "GET") [] []).2 = none ∧
    beValue ((requestBytes (lit "smugglefuzz") (List.replicate 16777216 97) (lit "/")
      (lit "x-test") (lit "1") 1 (lit "GET") [] []).take 3) = 57 ∧
    (requestBytes (lit "smugglefuzz") (List.replicate 16777216 97) (lit "/")
      (lit "x-test") (lit "1") 1 (lit "GET") [] []).length - 9 - (9 + 0) = 16777273 :=
  oversized_block (List.replicate 16777216 97) (List.length_replicate _ _)

/-- Claim C1 (amended): for every valid request whose header block is shorter than
`2 ^ 24` bytes (and whose stream id is a `uint32`), `GenerateRequest` succeeds and the
first nine bytes of its output are a HEADERS frame header: byte 3 is `0x01`, the 24-bit
big-endian length field equals the number of header-block bytes that follow (the output
length minus 9 minus the `9 + len(body)` bytes of the trailing DATA frame, which are the
header block itself), and bytes 5..8 are the 32-bit big-endian encoding of `streamId`. -/
theorem C1_headers_frame_header (ua h p cn cv : Bytes) (sid : Nat) (m ah body : Bytes)
    (hv : ValidRequest ah) (hsid : sid < 2 ^ 32)
    (hlen : (headerBlock ua h p cn cv m ah).length < 2 ^ 24) :
    ∃ out, GenerateRequest ua h p cn cv sid m ah body = (some out, none) ∧
      out.length - 9 - (9 + body.length) = (headerBlock ua h p cn cv m ah).length ∧
      (out.drop 9).take (out.length - 9 - (9 + body.length)) = headerBlock ua h p cn cv m ah ∧
      out.get? 3 = some 0x01 ∧
      beValue (out.take 3) = out.length - 9 - (9 + body.length) ∧
      (out.drop 5).take 4 =
        [sid / 2 ^ 24 % 256, sid / 2 ^ 16 % 256, sid / 2 ^ 8 % 256, sid % 256] ∧
      beValue ((out.drop 5).take 4) = sid := by
  obtain ⟨n, v, hs⟩ := splitAdditionalHeader_valid ah hv
  refine ⟨_, GenerateRequest_eq ua h p cn cv sid m ah body n v hs, ?_⟩
  have hl : ([byte ((headerBlock ua h p cn cv m ah).length >>> 16),
              byte ((headerBlock ua h p cn cv m ah).length >>> 8),
              byte (headerBlock ua h p cn cv m ah).length, 0x01, 0x04,
              byte (sid >>> 24), byte (sid >>> 16), byte (sid >>> 8), byte sid]
            ++ headerBlock ua h p cn cv m ah ++ generateDataFrame sid body).length
      - 9 - (9 + body.length) = (headerBlock ua h p cn cv m ah).length := by
    simp [generateDataFrame_eq]
    omega
  refine ⟨hl, ?_, ?_, ?_, ?_, ?_⟩
  · rw [hl]; simp
  · simp
  · rw [hl]
    simp only [List.cons_append, List.take_succ_cons, List.take_zero]
    rw [beValue_three]
    omega
  · simp [byte, Nat.shiftRight_eq_div_pow]
  · simp only [List.cons_append, List.drop_succ_cons, List.drop_zero, List.take_succ_cons,
      List.take_zero]
    rw [beValue_four]
    omega

/-- The amended claim C1 at a concrete request. -/
theorem C1_headers_frame_header_witness :
    ValidRequest (lit "X-Foo: bar") ∧
    1 < 2 ^ 32 ∧
    (headerBlock (lit "smugglefuzz") (lit "example.com") (lit "/") (lit "x-test") (lit "1") (lit "POST") (lit "X-Foo: bar")).length < 2 ^ 24 ∧
    ∃ out, GenerateRequest (lit "smugglefuzz") (lit "example.com") (lit "/") (lit "x-test") (lit "1") 1 (lit "POST") (lit "X-Foo: bar") (lit "0\r\n\r\n") = (some out, none) ∧
      out.length - 9 - (9 + (lit "0\r\n\r\n").length) = (headerBlock (lit "smugglefuzz") (lit "example.com") (lit "/") (lit "x-test") (lit "1") (lit "POST") (lit "X-Foo: bar")).length ∧
      (out.drop 9).take (out.length - 9 - (9 + (lit "0\r\n\r\n").length)) = headerBlock (lit "smugglefuzz") (lit "example.com") (lit "/") (lit "x-test") (lit "1") (lit "POST") (lit "X-Foo: bar") ∧
      out.get? 3 = some 0x01 ∧
      beValue (out.take 3) = out.length - 9 - (9 + (lit "0\r\n\r\n").length) ∧
      (out.drop 5).take 4 =
        [1 / 2 ^ 24 % 256, 1 / 2 ^ 16 % 256, 1 / 2 ^ 8 % 256, 1 % 256] ∧
      beValue ((out.drop 5).take 4) = 1 :=
  ⟨by decide, by decide, by decide,
    C1_headers_frame_header (lit "smugglefuzz") (lit "example.com") (lit "/") (lit "x-test") (lit "1") 1 (lit "POST") (lit "X-Foo: bar") (lit "0\r\n\r\n")
      (by decide) (by decide) (by decide)⟩

/-! ## Claim C2 -/

/-- The layout of a successful return with the length octets the code writes: a
9-byte frame header, the ordered fields with `byte(len(x))` in every length octet,
the DATA frame. No bound on the literals is needed for this form. -/
theorem request_layout_octets (ua h p cn cv : Bytes) (sid : Nat) (m ah body : Bytes)
    (hv : ValidRequest ah) :
    ∃ name value hdr, splitAdditionalHeader ah = Except.ok (name, value) ∧
      hdr.length = 9 ∧
      GenerateRequest ua h p cn cv sid m ah body =
        (some (hdr ++
          orderedFields lenOctet (withholdFlags cn) ua h p cn cv m (additionalOf ah name value)
          ++ generateDataFrame sid body), none) ∧
      headerBlock ua h p cn cv m ah =
        orderedFields lenOctet (withholdFlags cn) ua h p cn cv m
          (additionalOf ah name value) := by
  obtain ⟨n, v, hs⟩ := splitAdditionalHeader_valid ah hv
  refine ⟨n, v, [byte ((headerBlock ua h p cn cv m ah).length >>> 16),
    byte ((headerBlock ua h p cn cv m ah).length >>> 8),
    byte (headerBlock ua h p cn cv m ah).length, 0x01, 0x04,
    byte (sid >>> 24), byte (sid >>> 16), byte (sid >>> 8), byte sid], hs, rfl, ?_,
    headerBlock_eq ua h p cn cv m ah n v hs⟩
  rw [GenerateRequest_eq ua h p cn cv sid m ah body n v hs,
    headerBlock_eq ua h p cn cv m ah n v hs]

/-- With a hostname of 256 bytes, the list of fields with `len(hostname)` itself in the
length octet has 256 at offset 2. -/
theorem long_literal_length (host : Bytes) (hhost : host.length = 256) :
    (orderedFields List.length (withholdFlags (lit "x-test")) (lit "smugglefuzz") host (lit "/")
      (lit "x-test") (lit "1") (lit "GET") (additionalOf [] [] [])).get? 2 = some 256 := by
  have hw : withholdFlags (lit "x-test") = ⟨false, false, false, false, false⟩ := by decide
  rw [hw]
  simp [orderedFields, schemeField, indexedNameField, hhost]

/-- Claim C2, as stated, fails: for the valid request with a hostname of 256 bytes the
header block is not the concatenation with `len(hostname)` after `0x41`: at offset 2 the
block holds the octet `0`, where the concatenation of the claim has `256`. -/
theorem C2_counterexample :
    ValidRequest [] ∧
    splitAdditionalHeader [] = Except.ok ([], []) ∧
    (List.replicate 256 97).length = 256 ∧
    (headerBlock (lit "smugglefuzz") (List.replicate 256 97) (lit "/") (lit "x-test") (lit "1")
      (lit "GET") []).get? 2 = some 0 ∧
    (orderedFields List.length (withholdFlags (lit "x-test")) (lit "smugglefuzz")
      (List.replicate 256 97) (lit "/") (lit "x-test") (lit "1") (lit "GET")
      (additionalOf [] [] [])).get? 2 = some 256 ∧
    headerBlock (lit "smugglefuzz") (List.replicate 256 97) (lit "/") (lit "x-test") (lit "1")
        (lit "GET") [] ≠
      orderedFields List.length (withholdFlags (lit "x-test")) (lit "smugglefuzz")
        (List.replicate 256 97) (lit "/") (lit "x-test") (lit "1") (lit "GET")
        (additionalOf [] [] []) := by
  have h1 := (long_literal_octet (List.replicate 256 97) (List.length_replicate _ _)).2.1
  have h2 := long_literal_length (List.replicate 256 97) (List.length_replicate _ _)
  refine ⟨Or.inl rfl, splitAdditionalHeader_nil, List.length_replicate _ _, h1, h2, ?_⟩
  intro h
  rw [h, h2] at h1
  exact absurd h1 (by decide)

/-- Claim C2 (amended): for every valid request in which the hostname, method, path,
custom header name and value, additional header name and value and user-agent value are
each shorter than 256 bytes, the output of `GenerateRequest` is a 9-byte frame header,
then the header block, then the DATA frame, and the header block is exactly the
concatenation, in this order, of: `0x87`; `0x41`, `len(hostname)`, hostname; `0x42`,
`len(method)`, method; `0x44`, `len(path)`, path (each unless its flag withholds it); the
custom header `0x40`, `len(name)`, name, `len(value)`, value; the additional header in the
same shape when the additional header string is non-empty; `user-agent` unless withheld;
`accept: */*`; with nothing before, between or after these pieces. -/
theorem C2_header_block_order (ua h p cn cv : Bytes) (sid : Nat)
    (m ah body name value : Bytes)
    (hs : splitAdditionalHeader ah = Except.ok (name, value))
    (hh : h.length < 256) (hm : m.length < 256) (hp : p.length < 256)
    (hcn : cn.length < 256) (hcv : cv.length < 256)
    (hname : name.length < 256) (hvalue : value.length < 256) (hua : ua.length < 256) :
    ∃ hdr, hdr.length = 9 ∧
      GenerateRequest ua h p cn cv sid m ah body =
        (some (hdr ++
          orderedFields List.length (withholdFlags cn) ua h p cn cv m
            (additionalOf ah name value)
          ++ generateDataFrame sid body), none) ∧
      headerBlock ua h p cn cv m ah =
        orderedFields List.length (withholdFlags cn) ua h p cn cv m
          (additionalOf ah name value) := by
  have hadd : ∀ nv ∈ additionalOf ah name value, nv.1.length < 256 ∧ nv.2.length < 256 := by
    intro nv hnv
    unfold additionalOf at hnv
    split_ifs at hnv
    · simp at hnv
    · simp only [Option.mem_def, Option.some.injEq] at hnv
      subst hnv
      exact ⟨hname, hvalue⟩
  have hb : headerBlock ua h p cn cv m ah =
      orderedFields List.length (withholdFlags cn) ua h p cn cv m
        (additionalOf ah name value) :=
    (headerBlock_eq ua h p cn cv m ah name value hs).trans
      (orderedFields_octets (withholdFlags cn) ua h p cn cv m _ hh hm hp hcn hcv hua hadd)
  refine ⟨[byte ((headerBlock ua h p cn cv m ah).length >>> 16),
    byte ((headerBlock ua h p cn cv m ah).length >>> 8),
    byte (headerBlock ua h p cn cv m ah).length, 0x01, 0x04,
    byte (sid >>> 24), byte (sid >>> 16), byte (sid >>> 8), byte sid], rfl, ?_, hb⟩
  rw [GenerateRequest_eq ua h p cn cv sid m ah body name value hs, ← hb]

/-- The amended claim C2 at a concrete request. -/
theorem C2_header_block_order_witness :
    (splitAdditionalHeader (lit "X-Foo: bar") = Except.ok ((lit "X-Foo"), (lit "bar"))) ∧
    ((lit "example.com").length < 256) ∧
    ((lit "POST").length < 256) ∧
    ((lit "/").length < 256) ∧
    ((lit "x-test").length < 256) ∧
    ((lit "1").length < 256) ∧
    ((lit "X-Foo").length < 256) ∧
    ((lit "bar").length < 256) ∧
    ((lit "smugglefuzz").length < 256) ∧
    ∃ hdr, hdr.length = 9 ∧
      GenerateRequest (lit "smugglefuzz") (lit "example.com") (lit "/") (lit "x-test") (lit "1") 1 (lit "POST") (lit "X-Foo: bar") (lit "0\r\n\r\n") =
        (some (hdr ++
          orderedFields List.length (withholdFlags (lit "x-test")) (lit "smugglefuzz") (lit "example.com") (lit "/") (lit "x-test") (lit "1") (lit "POST")
            (additionalOf (lit "X-Foo: bar") (lit "X-Foo") (lit "bar"))
          ++ generateDataFrame 1 (lit "0\r\n\r\n")), none) ∧
      headerBlock (lit "smugglefuzz") (lit "example.com") (lit "/") (lit "x-test") (lit "1") (lit "POST") (lit "X-Foo: bar") =
        orderedFields List.length (withholdFlags (lit "x-test")) (lit "smugglefuzz") (lit "example.com") (lit "/") (lit "x-test") (lit "1") (lit "POST")
          (additionalOf (lit "X-Foo: bar") (lit "X-Foo") (lit "bar")) :=
  ⟨rfl, by decide, by decide, by decide, by decide, by decide, by decide, by decide, by decide,
    C2_header_block_order (lit "smugglefuzz") (lit "example.com") (lit "/") (lit "x-test") (lit "1") 1 (lit "POST") (lit "X-Foo: bar") (lit "0\r\n\r\n") (lit "X-Foo") (lit "bar")
      rfl (by decide) (by decide) (by decide) (by decide) (by decide) (by decide) (by decide)
      (by decide)⟩

/-! ## Claim C3 -/

/-- Claim C3, as stated, fails: with custom header name `":scheme"` (so the default
`:scheme` field is withheld) and the path `"/Ç"`, whose UTF-8 bytes are `2f c3 87`, the
header block still contains the byte `0x87`, the default encoding of `:scheme`. -/
theorem C3_counterexample :
    ValidRequest [] ∧
    (withholdFlags (lit ":scheme")).withholdScheme = true ∧
    schemeField <:+: headerBlock (lit "smugglefuzz") (lit "example.com") [0x2f, 0xc3, 0x87]
      (lit ":scheme") (lit "http") (lit "GET") [] := by
  decide

/-- Claim C3 (amended): for every valid request whose custom header name is `":scheme"`,
`":authority"`, `":method"` or `":path"`, `GenerateRequest` leaves out its own default
field for that pseudo-header: the header block is exactly the concatenation of the other
three default fields, the custom header, the optional additional header, `user-agent` and
`accept`. (The bytes of the default encoding can still occur inside those pieces.) -/
theorem C3_withheld_field_omitted (ua h p cv m ah : Bytes) (hv : ValidRequest ah) :
    ∃ name value, splitAdditionalHeader ah = Except.ok (name, value) ∧
      headerBlock ua h p (lit ":scheme") cv m ah =
        indexedNameField lenOctet 0x41 h ++ indexedNameField lenOctet 0x42 m ++
        indexedNameField lenOctet 0x44 p ++ literalField lenOctet (lit ":scheme") cv ++
        optionalField lenOctet (additionalOf ah name value) ++
        literalField lenOctet (lit "user-agent") ua ++
        literalField lenOctet (lit "accept") (lit "*/*") ∧
      headerBlock ua h p (lit ":authority") cv m ah =
        schemeField ++ indexedNameField lenOctet 0x42 m ++
        indexedNameField lenOctet 0x44 p ++ literalField lenOctet (lit ":authority") cv ++
        optionalField lenOctet (additionalOf ah name value) ++
        literalField lenOctet (lit "user-agent") ua ++
        literalField lenOctet (lit "accept") (lit "*/*") ∧
      headerBlock ua h p (lit ":method") cv m ah =
        schemeField ++ indexedNameField lenOctet 0x41 h ++
        indexedNameField lenOctet 0x44 p ++ literalField lenOctet (lit ":method") cv ++
        optionalField lenOctet (additionalOf ah name value) ++
        literalField lenOctet (lit "user-agent") ua ++
        literalField lenOctet (lit "accept") (lit "*/*") ∧
      headerBlock ua h p (lit ":path") cv m ah =
        schemeField ++ indexedNameField lenOctet 0x41 h ++
        indexedNameField lenOctet 0x42 m ++ literalField lenOctet (lit ":path") cv ++
        optionalField lenOctet (additionalOf ah name value) ++
        literalField lenOctet (lit "user-agent") ua ++
        literalField lenOctet (lit "accept") (lit "*/*") := by
  obtain ⟨n, v, hs⟩ := splitAdditionalHeader_valid ah hv
  have w1 : withholdFlags (lit ":scheme") = ⟨true, false, false, false, false⟩ := by decide
  have w2 : withholdFlags (lit ":authority") = ⟨false, true, false, false, false⟩ := by decide
  have w3 : withholdFlags (lit ":method") = ⟨false, false, false, true, false⟩ := by decide
  have w4 : withholdFlags (lit ":path") = ⟨false, false, true, false, false⟩ := by decide
  refine ⟨n, v, hs, ?_, ?_, ?_, ?_⟩
  · rw [headerBlock_eq ua h p _ cv m ah n v hs, w1]
    simp [orderedFields]
  · rw [headerBlock_eq ua h p _ cv m ah n v hs, w2]
    simp [orderedFields]
  · rw [headerBlock_eq ua h p _ cv m ah n v hs, w3]
    simp [orderedFields]
  · rw [headerBlock_eq ua h p _ cv m ah n v hs, w4]
    simp [orderedFields]

/-- The amended claim C3 at a concrete request. -/
theorem C3_withheld_field_omitted_witness :
    ValidRequest (lit "X-Foo: bar") ∧
    ∃ name value, splitAdditionalHeader (lit "X-Foo: bar") = Except.ok (name, value) ∧
      headerBlock (lit "smugglefuzz") (lit "example.com") (lit "/") (lit ":scheme") (lit "http") (lit "POST") (lit "X-Foo: bar") =
        indexedNameField lenOctet 0x41 (lit "example.com") ++ indexedNameField lenOctet 0x42 (lit "POST") ++
        indexedNameField lenOctet 0x44 (lit "/") ++ literalField lenOctet (lit ":scheme") (lit "http") ++
        optionalField lenOctet (additionalOf (lit "X-Foo: bar") name value) ++
        literalField lenOctet (lit "user-agent") (lit "smugglefuzz") ++
        literalField lenOctet (lit "accept") (lit "*/*") ∧
      headerBlock (lit "smugglefuzz") (lit "example.com") (lit "/") (lit ":authority") (lit "http") (lit "POST") (lit "X-Foo: bar") =
        schemeField ++ indexedNameField lenOctet 0x42 (lit "POST") ++
        indexedNameField lenOctet 0x44 (lit "/") ++ literalField lenOctet (lit ":authority") (lit "http") ++
        optionalField lenOctet (additionalOf (lit "X-Foo: bar") name value) ++
        literalField lenOctet (lit "user-agent") (lit "smugglefuzz") ++
        literalField lenOctet (lit "accept") (lit "*/*") ∧
      headerBlock (lit "smugglefuzz") (lit "example.com") (lit "/") (lit ":method") (lit "http") (lit "POST") (lit "X-Foo: bar") =
        schemeField ++ indexedNameField lenOctet 0x41 (lit "example.com") ++
        indexedNameField lenOctet 0x44 (lit "/") ++ literalField lenOctet (lit ":method") (lit "http") ++
        optionalField lenOctet (additionalOf (lit "X-Foo: bar") name value) ++
        literalField lenOctet (lit "user-agent") (lit "smugglefuzz") ++
        literalField lenOctet (lit "accept") (lit "*/*") ∧
      headerBlock (lit "smugglefuzz") (lit "example.com") (lit "/") (lit ":path") (lit "http") (lit "POST") (lit "X-Foo: bar") =
        schemeField ++ indexedNameField lenOctet 0x41 (lit "example.com") ++
        indexedNameField lenOctet 0x42 (lit "POST") ++ literalField lenOctet (lit ":path") (lit "http") ++
        optionalField lenOctet (additionalOf (lit "X-Foo: bar") name value) ++
        literalField lenOctet (lit "user-agent") (lit "smugglefuzz") ++
        literalField lenOctet (lit "accept") (lit "*/*") :=
  ⟨by decide,
    C3_withheld_field_omitted (lit "smugglefuzz") (lit "example.com") (lit "/") (lit "http") (lit "POST") (lit "X-Foo: bar")
      (by decide)⟩

/-! ## Claim C4 -/

/-- Claim C4: `GenerateRequest` returns an error exactly when the additional header is
non-empty and does not contain `": "`; with an error the returned slice is `nil`; with an
additional header that is empty or contains `": "` the error is `nil` (and bytes are
returned) whatever the other arguments are; `"X-Foo"` fails and `"X-Foo: bar"` succeeds. -/
theorem C4_error_iff (ua h p cn cv : Bytes) (sid : Nat) (m ah body : Bytes) :
    ((GenerateRequest ua h p cn cv sid m ah body).2 ≠ none ↔
      (ah ≠ [] ∧ ¬ lit ": " <:+: ah)) ∧
    ((GenerateRequest ua h p cn cv sid m ah body).2 ≠ none →
      (GenerateRequest ua h p cn cv sid m ah body).1 = none) ∧
    ((ah = [] ∨ lit ": " <:+: ah) →
      (GenerateRequest ua h p cn cv sid m ah body).2 = none ∧
      (GenerateRequest ua h p cn cv sid m ah body).1 ≠ none) ∧
    (GenerateRequest ua h p cn cv sid m (lit "X-Foo") body).2 ≠ none ∧
    (GenerateRequest ua h p cn cv sid m (lit "X-Foo: bar") body).2 = none := by
  have ok : ∀ a : Bytes, ValidRequest a →
      (GenerateRequest ua h p cn cv sid m a body).2 = none ∧
      (GenerateRequest ua h p cn cv sid m a body).1 ≠ none := by
    intro a hv
    obtain ⟨n, v, hs⟩ := splitAdditionalHeader_valid a hv
    rw [GenerateRequest_eq ua h p cn cv sid m a body n v hs]
    simp
  have bad : ∀ a : Bytes, ¬ ValidRequest a →
      (GenerateRequest ua h p cn cv sid m a body).2 ≠ none ∧
      (GenerateRequest ua h p cn cv sid m a body).1 = none := by
    intro a hv
    have h1 : a ≠ [] := fun e => hv (Or.inl e)
    have h2 : stringsContains a (lit ": ") = false := by
      cases hc : stringsContains a (lit ": ") with
      | false => rfl
      | true => exact absurd (Or.inr hc) hv
    simp [GenerateRequest, splitAdditionalHeader_error a h1 h2]
  have hval : ∀ a : Bytes, ValidRequest a ↔ (a = [] ∨ lit ": " <:+: a) := by
    intro a
    simp [ValidRequest, stringsContains_iff]
  refine ⟨?_, ?_, ?_, ?_, ?_⟩
  · by_cases hv : ValidRequest ah
    · have := ok ah hv
      have hv2 := (hval ah).mp hv
      constructor
      · intro hne; exact absurd this.1 hne
      · rintro ⟨h1, h2⟩
        rcases hv2 with e | e
        · exact absurd e h1
        · exact absurd e h2
    · have := bad ah hv
      have hv2 := fun e => hv ((hval ah).mpr e)
      constructor
      · intro _
        exact ⟨fun e => hv2 (Or.inl e), fun e => hv2 (Or.inr e)⟩
      · intro _; exact this.1
  · intro hne
    by_cases hv : ValidRequest ah
    · exact absurd (ok ah hv).1 hne
    · exact (bad ah hv).2
  · intro hv
    exact ok ah ((hval ah).mpr hv)
  · exact (bad (lit "X-Foo") (by decide)).1
  · exact (ok (lit "X-Foo: bar") (by decide)).1

/-! ## Claim C5 -/

/-- Claim C5: each withhold flag is true exactly when the custom header name starts with
its own token (`:scheme`, `:authority`, `:method`, `:path`, `user-agent`), so the else-if
chain loses no match; at most one flag is set; and `":PATH"` and `"x:path"` set none. -/
theorem C5_withhold_flags (cn : Bytes) :
    ((withholdFlags cn).withholdScheme = true ↔ lit ":scheme" <+: cn) ∧
    ((withholdFlags cn).withholdAuthority = true ↔ lit ":authority" <+: cn) ∧
    ((withholdFlags cn).withholdMethod = true ↔ lit ":method" <+: cn) ∧
    ((withholdFlags cn).withholdPath = true ↔ lit ":path" <+: cn) ∧
    ((withholdFlags cn).withholdUserAgent = true ↔ lit "user-agent" <+: cn) ∧
    [(withholdFlags cn).withholdScheme, (withholdFlags cn).withholdAuthority,
      (withholdFlags cn).withholdMethod, (withholdFlags cn).withholdPath,
      (withholdFlags cn).withholdUserAgent].count true ≤ 1 ∧
    withholdFlags (lit ":PATH") = ⟨false, false, false, false, false⟩ ∧
    withholdFlags (lit "x:path") = ⟨false, false, false, false, false⟩ := by
  obtain ⟨h1, h2, h3, h4, h5⟩ := withholdFlags_cases cn
  refine ⟨h1, h2, h3, h4, h5, ?_, by decide, by decide⟩
  unfold withholdFlags
  split_ifs <;> decide

/-! ## Claim C6 -/

/-- Claim C6: for every additional header containing `": "`, the name and value that
`GenerateRequest` derives (and writes into the header block) satisfy
`name ++ ": " ++ value = additionalHeader`, and the name does not contain `": "`. -/
theorem C6_split_first_occurrence (ah : Bytes) (hc : lit ": " <:+: ah) :
    ∃ name value, splitAdditionalHeader ah = Except.ok (name, value) ∧
      name ++ lit ": " ++ value = ah ∧ ¬ lit ": " <:+: name ∧
      ∀ (ua h p cn cv m : Bytes), headerBlock ua h p cn cv m ah =
        orderedFields lenOctet (withholdFlags cn) ua h p cn cv m (some (name, value)) := by
  have hne : ah ≠ [] := by
    rintro rfl
    simp [lit_sep] at hc
  obtain ⟨i, hi, hs⟩ := splitAdditionalHeader_ok ah hne ((stringsContains_iff _ _).mpr hc)
  obtain ⟨e1, e2⟩ := firstIndex_split (lit ": ") (by decide) ah i hi
  refine ⟨_, _, hs, ?_, ?_, ?_⟩
  · have : (lit ": ").length = 2 := by decide
    rw [this] at e1
    exact e1
  · rw [← firstIndex_isSome_iff, e2]
    simp
  · intro ua h p cn cv m
    rw [headerBlock_eq ua h p cn cv m ah _ _ hs]
    simp [additionalOf, hne]

/-- Claim C6 at an additional header whose value contains `": "` again. -/
theorem C6_split_first_occurrence_witness :
    lit ": " <:+: (lit "X-Note: a: b") ∧
    ∃ name value, splitAdditionalHeader (lit "X-Note: a: b") = Except.ok (name, value) ∧
      name ++ lit ": " ++ value = (lit "X-Note: a: b") ∧ ¬ lit ": " <:+: name ∧
      ∀ (ua h p cn cv m : Bytes), headerBlock ua h p cn cv m (lit "X-Note: a: b") =
        orderedFields lenOctet (withholdFlags cn) ua h p cn cv m (some (name, value)) :=
  ⟨by decide,
    C6_split_first_occurrence (lit "X-Note: a: b")
      (by decide)⟩

/-! ## Claim C7 -/

/-- Claim C7: for every valid request with stream id below `2 ^ 31` and header block and
body each shorter than `2 ^ 24` bytes, the output of `GenerateRequest` splits into exactly
two frames with nothing left over: a HEADERS frame (type 1, flags 4, the stream id, the
header block as payload) and a DATA frame (type 0, flags 1, the same stream id, the body
as payload); the bytes after the HEADERS frame are `generateDataFrame streamId body`; and
for the empty body that frame is 9 bytes long with length field 0. -/
theorem C7_two_frames (ua h p cn cv : Bytes) (sid : Nat) (m ah body : Bytes)
    (hv : ValidRequest ah) (hsid : sid < 2 ^ 31)
    (hblock : (headerBlock ua h p cn cv m ah).length < 2 ^ 24)
    (hbody : body.length < 2 ^ 24) :
    ∃ out, GenerateRequest ua h p cn cv sid m ah body = (some out, none) ∧
      splitFrames out =
        some [⟨(headerBlock ua h p cn cv m ah).length, 0x1, 0x4, sid,
                headerBlock ua h p cn cv m ah⟩,
              ⟨body.length, 0x0, 0x1, sid, body⟩] ∧
      out.drop (9 + (headerBlock ua h p cn cv m ah).length) = generateDataFrame sid body ∧
      splitFrames (generateDataFrame sid body) = some [⟨body.length, 0x0, 0x1, sid, body⟩] ∧
      (generateDataFrame sid []).length = 9 ∧
      beValue ((generateDataFrame sid []).take 3) = 0 ∧
      splitFrames (generateDataFrame sid []) = some [⟨0, 0x0, 0x1, sid, []⟩] := by
  obtain ⟨n, v, hs⟩ := splitAdditionalHeader_valid ah hv
  refine ⟨_, GenerateRequest_eq ua h p cn cv sid m ah body n v hs, ?_, ?_, ?_, ?_, ?_, ?_⟩
  · have h1 := readFrame_built (headerBlock ua h p cn cv m ah).length 1 4 sid
      (headerBlock ua h p cn cv m ah) (generateDataFrame sid body) rfl hblock hsid
    have h2 := readFrame_dataFrame sid body hbody hsid
    have hl : ([byte ((headerBlock ua h p cn cv m ah).length >>> 16),
              byte ((headerBlock ua h p cn cv m ah).length >>> 8),
              byte (headerBlock ua h p cn cv m ah).length, 0x01, 0x04,
              byte (sid >>> 24), byte (sid >>> 16), byte (sid >>> 8), byte sid]
            ++ headerBlock ua h p cn cv m ah ++ generateDataFrame sid body).length
        = ((headerBlock ua h p cn cv m ah).length + body.length + 16) + 2 := by
      simp [generateDataFrame_eq]
      omega
    unfold splitFrames
    rw [hl]
    exact splitFramesAux_two _ _ _ _ _ h1 h2
  · rw [List.append_assoc, List.drop_append_eq_append_drop]
    simp
  · have h2 := readFrame_dataFrame sid body hbody hsid
    have hl : (generateDataFrame sid body).length = (body.length + 8) + 1 := by
      simp [generateDataFrame_eq]
    unfold splitFrames
    rw [hl]
    exact splitFramesAux_one _ _ _ h2
  · simp [generateDataFrame_eq]
  · simp [generateDataFrame_eq, beValue, byte]
  · have h2 := readFrame_dataFrame sid [] (by simp) hsid
    have hl : (generateDataFrame sid []).length = 8 + 1 := by
      simp [generateDataFrame_eq]
    unfold splitFrames
    rw [hl]
    exact splitFramesAux_one _ _ _ h2

/-- Claim C7 at a concrete request. -/
theorem C7_two_frames_witness :
    ValidRequest (lit "X-Foo: bar") ∧
    1 < 2 ^ 31 ∧
    (headerBlock (lit "smugglefuzz") (lit "example.com") (lit "/") (lit "x-test") (lit "1") (lit "POST") (lit "X-Foo: bar")).length < 2 ^ 24 ∧
    (lit "0\r\n\r\n").length < 2 ^ 24 ∧
    ∃ out, GenerateRequest (lit "smugglefuzz") (lit "example.com") (lit "/") (lit "x-test") (lit "1") 1 (lit "POST") (lit "X-Foo: bar") (lit "0\r\n\r\n") = (some out, none) ∧
      splitFrames out =
        some [⟨(headerBlock (lit "smugglefuzz") (lit "example.com") (lit "/") (lit "x-test") (lit "1") (lit "POST") (lit "X-Foo: bar")).length, 0x1, 0x4, 1,
                headerBlock (lit "smugglefuzz") (lit "example.com") (lit "/") (lit "x-test") (lit "1") (lit "POST") (lit "X-Foo: bar")⟩,
              ⟨(lit "0\r\n\r\n").length, 0x0, 0x1, 1, (lit "0\r\n\r\n")⟩] ∧
      out.drop (9 + (headerBlock (lit "smugglefuzz") (lit "example.com") (lit "/") (lit "x-test") (lit "1") (lit "POST") (lit "X-Foo: bar")).length) = generateDataFrame 1 (lit "0\r\n\r\n") ∧
      splitFrames (generateDataFrame 1 (lit "0\r\n\r\n")) = some [⟨(lit "0\r\n\r\n").length, 0x0, 0x1, 1, (lit "0\r\n\r\n")⟩] ∧
      (generateDataFrame 1 []).length = 9 ∧
      beValue ((generateDataFrame 1 []).take 3) = 0 ∧
      splitFrames (generateDataFrame 1 []) = some [⟨0, 0x0, 0x1, 1, []⟩] :=
  ⟨by decide, by decide, by decide, by decide,
    C7_two_frames (lit "smugglefuzz") (lit "example.com") (lit "/") (lit "x-test") (lit "1") 1 (lit "POST") (lit "X-Foo: bar") (lit "0\r\n\r\n")
      (by decide) (by decide) (by decide) (by decide)⟩

/-! ## Claim C8 -/

/-- Claim C8, as stated, fails: for the stream id `2 ^ 31` (a `uint32`), byte 5 of the
WINDOW_UPDATE frame, of the DATA frame and of the HEADERS frame of `GenerateRequest` is
`0x80`, which is not below `0x80`. -/
theorem C8_counterexample :
    2147483648 < 2 ^ 32 ∧
    (generateWindowUpdateFrame 2147483648).get? 5 = some 0x80 ∧
    (generateDataFrame 2147483648 (lit "0\r\n\r\n")).get? 5 = some 0x80 ∧
    (requestBytes (lit "smugglefuzz") (lit "example.com") (lit "/") (lit "x-test") (lit "1")
      2147483648 (lit "GET") [] (lit "0\r\n\r\n")).get? 5 = some 0x80 ∧
    ¬ (0x80 < 0x80) := by
  decide

/-- Claim C8 (amended): for every stream id below `2 ^ 31`, byte 5 of every frame the
codec produces (the HEADERS and the DATA frame of `GenerateRequest`, `generateDataFrame`,
`generateWindowUpdateFrame`) is `streamId / 2 ^ 24`, which is below `0x80`: the reserved
bit is zero. -/
theorem C8_stream_id_high_bit (ua h p cn cv : Bytes) (sid : Nat) (m ah body : Bytes)
    (hv : ValidRequest ah) (hsid : sid < 2 ^ 31) :
    sid / 2 ^ 24 < 0x80 ∧
    (requestBytes ua h p cn cv sid m ah body).get? 5 = some (sid / 2 ^ 24) ∧
    ((requestBytes ua h p cn cv sid m ah body).drop
      (9 + (headerBlock ua h p cn cv m ah).length)).get? 5 = some (sid / 2 ^ 24) ∧
    (generateDataFrame sid body).get? 5 = some (sid / 2 ^ 24) ∧
    (generateWindowUpdateFrame sid).get? 5 = some (sid / 2 ^ 24) := by
  have hb : byte (sid >>> 24) = sid / 2 ^ 24 := by
    simp only [byte, Nat.shiftRight_eq_div_pow]
    omega
  refine ⟨by omega, ?_, ?_, ?_, ?_⟩
  · rw [requestBytes_eq ua h p cn cv sid m ah body hv]
    simp [hb]
  · rw [requestBytes_drop ua h p cn cv sid m ah body hv]
    simp [generateDataFrame_eq, hb]
  · simp [generateDataFrame_eq, hb]
  · simp [generateWindowUpdateFrame_eq, hb]

/-- The amended claim C8 at a concrete request. -/
theorem C8_stream_id_high_bit_witness :
    ValidRequest (lit "X-Foo: bar") ∧
    1 < 2 ^ 31 ∧
    1 / 2 ^ 24 < 0x80 ∧
    (requestBytes (lit "smugglefuzz") (lit "example.com") (lit "/") (lit "x-test") (lit "1") 1 (lit "POST") (lit "X-Foo: bar") (lit "0\r\n\r\n")).get? 5 = some (1 / 2 ^ 24) ∧
    ((requestBytes (lit "smugglefuzz") (lit "example.com") (lit "/") (lit "x-test") (lit "1") 1 (lit "POST") (lit "X-Foo: bar") (lit "0\r\n\r\n")).drop
      (9 + (headerBlock (lit "smugglefuzz") (lit "example.com") (lit "/") (lit "x-test") (lit "1") (lit "POST") (lit "X-Foo: bar")).length)).get? 5 = some (1 / 2 ^ 24) ∧
    (generateDataFrame 1 (lit "0\r\n\r\n")).get? 5 = some (1 / 2 ^ 24) ∧
    (generateWindowUpdateFrame 1).get? 5 = some (1 / 2 ^ 24) :=
  ⟨by decide, by decide,
    C8_stream_id_high_bit (lit "smugglefuzz") (lit "example.com") (lit "/") (lit "x-test") (lit "1") 1 (lit "POST") (lit "X-Foo: bar") (lit "0\r\n\r\n")
      (by decide) (by decide)⟩

/-! ## Claim C9 -/

/-- Claim C9, as stated, fails: for the valid request with a hostname of 256 bytes the
header block starts `0x87, 0x41`, the hostname stands at offsets 3..258, and the octet
right before it, at offset 2, is `0`, not `256`. -/
theorem C9_counterexample :
    ValidRequest [] ∧
    (List.replicate 256 97).length = 256 ∧
    (headerBlock (lit "smugglefuzz") (List.replicate 256 97) (lit "/") (lit "x-test") (lit "1")
      (lit "GET") []).take 2 = [0x87, 0x41] ∧
    (headerBlock (lit "smugglefuzz") (List.replicate 256 97) (lit "/") (lit "x-test") (lit "1")
      (lit "GET") []).get? 2 = some 0 ∧
    ((headerBlock (lit "smugglefuzz") (List.replicate 256 97) (lit "/") (lit "x-test") (lit "1")
      (lit "GET") []).drop 3).take 256 = List.replicate 256 97 :=
  ⟨Or.inl rfl, List.length_replicate _ _,
    long_literal_octet (List.replicate 256 97) (List.length_replicate _ _)⟩

/-- Claim C9 (amended): for every valid request in which the hostname, method, path,
custom header name and value, additional header name and value and user-agent value are
each shorter than 256 bytes, every one of these literals is, where the header block holds
it, immediately preceded by one octet whose value is the literal's byte length: the block
is the ordered list of fields with `len(x)` itself in every length octet. -/
theorem C9_length_octets (ua h p cn cv m ah name value : Bytes)
    (hs : splitAdditionalHeader ah = Except.ok (name, value))
    (hh : h.length < 256) (hm : m.length < 256) (hp : p.length < 256)
    (hcn : cn.length < 256) (hcv : cv.length < 256)
    (hname : name.length < 256) (hvalue : value.length < 256) (hua : ua.length < 256) :
    headerBlock ua h p cn cv m ah =
      orderedFields List.length (withholdFlags cn) ua h p cn cv m
        (additionalOf ah name value) := by
  rw [headerBlock_eq ua h p cn cv m ah name value hs]
  have e : ∀ x : Bytes, x.length < 256 → lenOctet x = x.length := by
    intro x hx
    exact Nat.mod_eq_of_lt hx
  have e1 : lenOctet (lit "user-agent") = (lit "user-agent").length := by decide
  have e2 : lenOctet (lit "accept") = (lit "accept").length := by decide
  have e3 : lenOctet (lit "*/*") = (lit "*/*").length := by decide
  unfold orderedFields indexedNameField literalField optionalField additionalOf
  rw [e h hh, e m hm, e p hp, e cn hcn, e cv hcv, e ua hua, e1, e2, e3]
  by_cases hah : ah = []
  · simp [hah]
  · simp [hah, literalField, e name hname, e value hvalue]

/-- The amended claim C9 at a concrete request. -/
theorem C9_length_octets_witness :
    splitAdditionalHeader (lit "X-Foo: bar") = Except.ok ((lit "X-Foo"), (lit "bar")) ∧
    (lit "example.com").length < 256 ∧
    (lit "POST").length < 256 ∧
    (lit "/").length < 256 ∧
    (lit "x-test").length < 256 ∧
    (lit "1").length < 256 ∧
    (lit "X-Foo").length < 256 ∧
    (lit "bar").length < 256 ∧
    (lit "smugglefuzz").length < 256 ∧
    headerBlock (lit "smugglefuzz") (lit "example.com") (lit "/") (lit "x-test") (lit "1") (lit "POST") (lit "X-Foo: bar") =
      orderedFields List.length (withholdFlags (lit "x-test")) (lit "smugglefuzz") (lit "example.com") (lit "/") (lit "x-test") (lit "1") (lit "POST")
        (additionalOf (lit "X-Foo: bar") (lit "X-Foo") (lit "bar")) :=
  ⟨rfl, by decide, by decide, by decide, by decide, by decide, by decide, by decide, by decide,
    C9_length_octets (lit "smugglefuzz") (lit "example.com") (lit "/") (lit "x-test") (lit "1") (lit "POST") (lit "X-Foo: bar") (lit "X-Foo") (lit "bar")
      (rfl) (by decide) (by decide) (by decide) (by decide) (by decide) (by decide) (by decide) (by decide)⟩

/-! ## Claim C10 -/

/-- Claim C10: `generateSettingsFrame` returns exactly 33 bytes: a frame header with
length field 24, type `0x04`, flags `0x00` and stream id 0, and a 24-byte payload that
parses as the four settings (2, 0), (3, 1000), (4, 6291456), (8, 1), in this order. -/
theorem C10_settings_frame :
    generateSettingsFrame.length = 33 ∧
    (∃ payload, readFrame generateSettingsFrame = some (⟨24, 0x04, 0x00, 0, payload⟩, []) ∧
      payload.length = 24 ∧
      payload = generateSettingsFrame.drop 9 ∧
      parseSettings payload = some [(2, 0), (3, 1000), (4, 6291456), (8, 1)]) := by
  refine ⟨by decide, generateSettingsFrame.drop 9, by decide, by decide, rfl, by decide⟩

/-! ## Auxiliary lemmas for the classifier loop, the handshake and the decoder -/

/-- Only the error code 0 has the name `NO_ERROR`. -/
theorem errCodeString_noError (e : Nat) : ErrCodeString e = lit "NO_ERROR" ↔ e = 0 := by
  constructor
  · intro h
    by_cases h14 : e < 14
    · interval_cases e <;> first | rfl | (revert h; decide)
    · exfalso
      have : errCodeName.get? e = none := by
        apply List.get?_eq_none.mpr
        simp [errCodeName]; omega
      unfold ErrCodeString at h
      rw [this] at h
      have e1 : lit "unknown error code 0x" = 117 :: (lit "nknown error code 0x") := by decide
      have e2 : lit "NO_ERROR" = 78 :: lit "O_ERROR" := by decide
      simp only [e1, e2, List.cons_append] at h
      injection h with h1 _
      omega
  · rintro rfl; decide

/-- The loop over one read frame is one turn of the loop body. -/
theorem handleLoop_single {D : Type} (hpackWrite : D → Bytes → D × List (Bytes × Bytes))
    (scanJob : ScanJob) (s : LoopState D) (f : InFrame) :
    handleLoop hpackWrite scanJob s [ReadResult.frame f] =
      handleFrame hpackWrite scanJob s f := by
  rcases h : handleFrame hpackWrite scanJob s f with ⟨s1, sent, run⟩
  cases run <;> simp [handleLoop, h]

/-- The loop over two runs of reads: the second run is reached only while the loop is
still running after the first. -/
theorem handleLoop_append {D : Type} (hpackWrite : D → Bytes → D × List (Bytes × Bytes))
    (scanJob : ScanJob) (xs ys : List ReadResult) (s : LoopState D) :
    handleLoop hpackWrite scanJob s (xs ++ ys) =
      if (handleLoop hpackWrite scanJob s xs).2.2 then
        ((handleLoop hpackWrite scanJob (handleLoop hpackWrite scanJob s xs).1 ys).1,
          (handleLoop hpackWrite scanJob s xs).2.1 ++
            (handleLoop hpackWrite scanJob (handleLoop hpackWrite scanJob s xs).1 ys).2.1,
          (handleLoop hpackWrite scanJob (handleLoop hpackWrite scanJob s xs).1 ys).2.2)
      else handleLoop hpackWrite scanJob s xs := by
  induction xs generalizing s with
  | nil => simp [handleLoop]
  | cons x xs ih =>
    cases x with
    | eof => simp [handleLoop]
    | readError => simp [handleLoop]
    | frame f =>
      simp only [List.cons_append, handleLoop, List.append_eq]
      by_cases hr : (handleFrame hpackWrite scanJob s f).2.2 = true
      · simp only [hr, if_true]
        rw [ih]
        split_ifs <;> simp
      · simp [hr]

/-- Only a GOAWAY frame makes the loop return. -/
theorem handleFrame_running {D : Type} (hpackWrite : D → Bytes → D × List (Bytes × Bytes))
    (scanJob : ScanJob) (s : LoopState D) (f : InFrame) (hf : f.isGoAway = false) :
    (handleFrame hpackWrite scanJob s f).2.2 = true := by
  cases f <;> simp [InFrame.isGoAway] at hf <;> simp only [handleFrame] <;> split_ifs <;> rfl

/-- After frames without a GOAWAY the loop is still running. -/
theorem handleLoop_running {D : Type} (hpackWrite : D → Bytes → D × List (Bytes × Bytes))
    (scanJob : ScanJob) (frames : List InFrame) (hf : ∀ f ∈ frames, f.isGoAway = false)
    (s : LoopState D) :
    (handleLoop hpackWrite scanJob s (framesRead frames)).2.2 = true := by
  induction frames generalizing s with
  | nil => simp [framesRead, handleLoop]
  | cons f fs ih =>
    have h1 := handleFrame_running hpackWrite scanJob s f (hf f (List.mem_cons_self _ _))
    have h2 := ih (fun g hg => hf g (List.mem_cons_of_mem _ hg))
      (handleFrame hpackWrite scanJob s f).1
    simp only [framesRead, List.map_cons, handleLoop, h1, if_true]
    exact h2

/-- The loop over frames without a GOAWAY followed by further reads. -/
theorem handleLoop_snoc {D : Type} (hpackWrite : D → Bytes → D × List (Bytes × Bytes))
    (scanJob : ScanJob) (frames : List InFrame) (hf : ∀ f ∈ frames, f.isGoAway = false)
    (s : LoopState D) (rest : List ReadResult) :
    handleLoop hpackWrite scanJob s (framesRead frames ++ rest) =
      ((handleLoop hpackWrite scanJob
          (handleLoop hpackWrite scanJob s (framesRead frames)).1 rest).1,
        (handleLoop hpackWrite scanJob s (framesRead frames)).2.1 ++
          (handleLoop hpackWrite scanJob
            (handleLoop hpackWrite scanJob s (framesRead frames)).1 rest).2.1,
        (handleLoop hpackWrite scanJob
          (handleLoop hpackWrite scanJob s (framesRead frames)).1 rest).2.2) := by
  rw [handleLoop_append, handleLoop_running hpackWrite scanJob frames hf s]
  simp

/-- The frames after the last marked one, when one more frame arrives. -/
theorem afterLast_snoc (p : InFrame → Bool) (l : List InFrame) (f : InFrame) :
    afterLast p (l ++ [f]) = if p f = true then [] else afterLast p l ++ [f] := by
  unfold afterLast
  by_cases h : p f = true <;> simp [List.takeWhile_cons, h]

/-- The connection-wide body when one more frame arrives. -/
theorem sharedBody_snoc (l : List InFrame) (f : InFrame) :
    sharedBody (l ++ [f]) = if isEndData f = true then [] else sharedBody l ++ dataOf f := by
  unfold sharedBody
  rw [afterLast_snoc]
  split_ifs <;> simp

/-- The byte count of a stream when one more frame arrives. -/
theorem bytesOn_snoc (k : Nat) (l : List InFrame) (f : InFrame) :
    bytesOn k (l ++ [f]) = bytesOn k l + (dataOn k f).length := by
  simp [bytesOn]

/-- The loop over frames without a GOAWAY followed by one more frame. -/
theorem handleLoop_framesRead_snoc {D : Type}
    (hpackWrite : D → Bytes → D × List (Bytes × Bytes)) (scanJob : ScanJob)
    (frames : List InFrame) (hf : ∀ f ∈ frames, f.isGoAway = false) (s : LoopState D)
    (f : InFrame) :
    handleLoop hpackWrite scanJob s (framesRead (frames ++ [f])) =
      ((handleFrame hpackWrite scanJob
          (handleLoop hpackWrite scanJob s (framesRead frames)).1 f).1,
        (handleLoop hpackWrite scanJob s (framesRead frames)).2.1 ++
          (handleFrame hpackWrite scanJob
            (handleLoop hpackWrite scanJob s (framesRead frames)).1 f).2.1,
        (handleFrame hpackWrite scanJob
          (handleLoop hpackWrite scanJob s (framesRead frames)).1 f).2.2) := by
  have : framesRead (frames ++ [f]) = framesRead frames ++ [ReadResult.frame f] := by
    simp [framesRead]
  rw [this, handleLoop_snoc hpackWrite scanJob frames hf, handleLoop_single]

/-- From the initial state, after frames without a GOAWAY: `hpackBody` is the connection-wide
body and `streamContentCount` is the per-stream byte count. -/
theorem loop_invariant {D : Type} (hpackWrite : D → Bytes → D × List (Bytes × Bytes))
    (hpackDecoder : D) (scanJob : ScanJob) (frames : List InFrame)
    (hf : ∀ f ∈ frames, f.isGoAway = false) :
    (handleLoop hpackWrite scanJob (initialState hpackDecoder) (framesRead frames)).1.hpackBody
      = sharedBody frames ∧
    ∀ k, (handleLoop hpackWrite scanJob (initialState hpackDecoder)
      (framesRead frames)).1.streamContentCount k = bytesOn k frames := by
  induction frames using List.reverseRecOn with
  | nil => 
    refine ⟨?_, fun k => ?_⟩ <;> rfl
  | append_singleton pre f ih =>
    have hpre : ∀ g ∈ pre, g.isGoAway = false := fun g hg => hf g (by simp [hg])
    obtain ⟨ib, ic⟩ := ih hpre
    rw [handleLoop_framesRead_snoc hpackWrite scanJob pre hpre]
    simp only [sharedBody_snoc, bytesOn_snoc]
    cases f with
    | GoAwayFrame =>
      have := hf InFrame.GoAwayFrame (by simp)
      simp [InFrame.isGoAway] at this
    | DataFrame sid fl d =>
      refine ⟨?_, fun k => ?_⟩
      · by_cases hfl : fl = 1 <;> simp [handleFrame, isEndData, dataOf, hfl, ib]
      · by_cases hfl : fl = 1 <;> by_cases hk : k = sid <;>
          simp [handleFrame, dataOn, InFrame.streamId, hfl, hk, ic] 
        · intro h; exact absurd h.symm hk
        · intro h; exact absurd h.symm hk
    | HeadersFrame sid fl frag =>
      refine ⟨?_, fun k => ?_⟩
      · simp only [isEndData, dataOf, Bool.false_eq_true, if_false, List.append_nil]
        simp only [handleFrame]; split_ifs <;> simp [ib]
      · simp only [dataOn, List.length_nil, Nat.add_zero]
        simp only [handleFrame]; split_ifs <;> simp [ic]
    | RSTStreamFrame sid code =>
      refine ⟨?_, fun k => ?_⟩
      · simp only [isEndData, dataOf, Bool.false_eq_true, if_false, List.append_nil]
        simp only [handleFrame]; split_ifs <;> simp [ib]
      · simp only [dataOn, List.length_nil, Nat.add_zero]
        simp only [handleFrame]; split_ifs <;> simp [ic]
    | SettingsFrame sid =>
      refine ⟨?_, fun k => ?_⟩
      · simp [handleFrame, isEndData, dataOf, ib]
      · simp [handleFrame, dataOn, ic]
    | OtherFrame sid =>
      refine ⟨?_, fun k => ?_⟩
      · simp [handleFrame, isEndData, dataOf, ib]
      · simp [handleFrame, dataOn, ic]

/-- The loop body reads only the target stream id and the keyword of the job. -/
theorem handleFrame_job {D : Type} (hpackWrite : D → Bytes → D × List (Bytes × Bytes))
    (j1 j2 : ScanJob) (h1 : j1.StreamId = j2.StreamId) (h2 : j1.Keyword = j2.Keyword)
    (s : LoopState D) (f : InFrame) :
    handleFrame hpackWrite j1 s f = handleFrame hpackWrite j2 s f := by
  cases f <;> simp [handleFrame, h1, h2]

/-- The loop reads only the target stream id and the keyword of the job. -/
theorem handleLoop_job {D : Type} (hpackWrite : D → Bytes → D × List (Bytes × Bytes))
    (j1 j2 : ScanJob) (h1 : j1.StreamId = j2.StreamId) (h2 : j1.Keyword = j2.Keyword)
    (reads : List ReadResult) (s : LoopState D) :
    handleLoop hpackWrite j1 s reads = handleLoop hpackWrite j2 s reads := by
  induction reads generalizing s with
  | nil => rfl
  | cons x xs ih =>
    cases x with
    | eof => rfl
    | readError => rfl
    | frame f =>
      simp only [handleLoop, handleFrame_job hpackWrite j1 j2 h1 h2, ih]

/-- A run of `HandleConnection` is the loop from the initial state. -/
theorem classify_eq {D : Type} (hpackWrite : D → Bytes → D × List (Bytes × Bytes))
    (hpackDecoder : D) (target : Nat) (keyword : Bytes) (frames : List InFrame) :
    classify hpackWrite hpackDecoder target keyword frames =
      handleLoop hpackWrite { Conn := none, StreamId := target, Keyword := keyword }
        (initialState hpackDecoder) (framesRead frames) := by
  show handleLoop hpackWrite
      { Conn := some (framesRead frames), StreamId := target, Keyword := keyword }
      (initialState hpackDecoder) (framesRead frames) = _
  exact handleLoop_job hpackWrite
    { Conn := some (framesRead frames), StreamId := target, Keyword := keyword }
    { Conn := none, StreamId := target, Keyword := keyword } rfl rfl _ _

/-- A run over frames without a GOAWAY followed by one more frame. -/
theorem classify_snoc {D : Type} (hpackWrite : D → Bytes → D × List (Bytes × Bytes))
    (hpackDecoder : D) (target : Nat) (keyword : Bytes) (frames : List InFrame)
    (hf : ∀ f ∈ frames, f.isGoAway = false) (f : InFrame) :
    classify hpackWrite hpackDecoder target keyword (frames ++ [f]) =
      ((handleFrame hpackWrite { Conn := none, StreamId := target, Keyword := keyword }
          (classify hpackWrite hpackDecoder target keyword frames).1 f).1,
        (classify hpackWrite hpackDecoder target keyword frames).2.1 ++
          (handleFrame hpackWrite { Conn := none, StreamId := target, Keyword := keyword }
            (classify hpackWrite hpackDecoder target keyword frames).1 f).2.1,
        (handleFrame hpackWrite { Conn := none, StreamId := target, Keyword := keyword }
          (classify hpackWrite hpackDecoder target keyword frames).1 f).2.2) := by
  simp only [classify_eq]
  exact handleLoop_framesRead_snoc hpackWrite _ frames hf _ f

/-- The state a run reaches after frames without a GOAWAY. -/
theorem classify_invariant {D : Type} (hpackWrite : D → Bytes → D × List (Bytes × Bytes))
    (hpackDecoder : D) (target : Nat) (keyword : Bytes) (frames : List InFrame)
    (hf : ∀ f ∈ frames, f.isGoAway = false) :
    (classify hpackWrite hpackDecoder target keyword frames).1.hpackBody = sharedBody frames ∧
    (∀ k, (classify hpackWrite hpackDecoder target keyword frames).1.streamContentCount k =
      bytesOn k frames) ∧
    (classify hpackWrite hpackDecoder target keyword frames).2.2 = true := by
  simp only [classify_eq]
  obtain ⟨h1, h2⟩ := loop_invariant hpackWrite hpackDecoder
    { Conn := none, StreamId := target, Keyword := keyword } frames hf
  exact ⟨h1, h2, handleLoop_running hpackWrite _ frames hf _⟩

/-- A DATA frame is not a GOAWAY frame. -/
theorem dataFrame_not_goAway (l : List (Nat × Nat × Bytes)) :
    ∀ f ∈ l.map dataFrame, f.isGoAway = false := by
  intro f hf
  obtain ⟨t, _, rfl⟩ := List.mem_map.mp hf
  rfl

/-- DATA frames leave the retained status empty. -/
theorem classify_data_status {D : Type} (hpackWrite : D → Bytes → D × List (Bytes × Bytes))
    (hpackDecoder : D) (target : Nat) (keyword : Bytes) (l : List (Nat × Nat × Bytes)) :
    (classify hpackWrite hpackDecoder target keyword (l.map dataFrame)).1.hpackstatus = [] := by
  induction l using List.reverseRecOn with
  | nil => rfl
  | append_singleton pre t ih =>
    rw [List.map_append, List.map_singleton,
      classify_snoc hpackWrite hpackDecoder target keyword _ (dataFrame_not_goAway pre)]
    simp only [dataFrame, handleFrame]
    split_ifs <;> exact ih

/-- The messages one DATA frame makes the loop body send. -/
theorem handleFrame_data {D : Type} (hpackWrite : D → Bytes → D × List (Bytes × Bytes))
    (scanJob : ScanJob) (s : LoopState D) (streamId flags : Nat) (data : Bytes) :
    (handleFrame hpackWrite scanJob s (InFrame.DataFrame streamId flags data)).2.1 =
      if flags = 0x1 ∧ streamId = scanJob.StreamId then
        if scanJob.Keyword ≠ [] then
          if stringsContains (s.hpackBody ++ data) scanJob.Keyword = true then
            [lit "SUCCESS [" ++ s.hpackstatus ++ lit "] - Keyword: True - Length: " ++
              sprintfD (s.streamContentCount streamId + data.length)]
          else
            [lit "SUCCESS [" ++ s.hpackstatus ++ lit "] - Keyword: False - Length: " ++
              sprintfD (s.streamContentCount streamId + data.length)]
        else
          [lit "SUCCESS [" ++ s.hpackstatus ++ lit "] Length: " ++
            sprintfD (s.streamContentCount streamId + data.length)]
      else [] := by
  by_cases h1 : flags = 1 <;> by_cases h2 : streamId = scanJob.StreamId <;>
    simp [handleFrame, InFrame.streamId, h1, h2]

/-- A literal of at most 126 bytes behind its length octet is read back. -/
theorem readLiteral_append (x rest : Bytes) (hx : x.length ≤ 126) :
    readLiteral (x.length :: (x ++ rest)) = some (x, rest) := by
  simp [readLiteral, hx]

/-- The field `0x87` decodes to `:scheme: https`. -/
theorem decodeField_scheme (rest : Bytes) :
    decodeField (schemeField ++ rest) = some ((lit ":scheme", lit "https"), rest) := by
  simp [schemeField, decodeField]

/-- A field with an indexed name decodes to that name and its literal value. -/
theorem decodeField_indexedName (pfx : Nat) (name value rest : Bytes)
    (hv : value.length ≤ 126)
    (hp : (pfx = 0x41 ∧ name = lit ":authority") ∨ (pfx = 0x42 ∧ name = lit ":method") ∨
      (pfx = 0x44 ∧ name = lit ":path")) :
    decodeField (indexedNameField List.length pfx value ++ rest) =
      some ((name, value), rest) := by
  rcases hp with ⟨rfl, rfl⟩ | ⟨rfl, rfl⟩ | ⟨rfl, rfl⟩ <;>
    simp [indexedNameField, decodeField, readLiteral_append _ _ hv]

/-- A field with a literal name decodes to its name and value. -/
theorem decodeField_literal (name value rest : Bytes)
    (hn : name.length ≤ 126) (hv : value.length ≤ 126) :
    decodeField (literalField List.length name value ++ rest) = some ((name, value), rest) := by
  have h1 : readLiteral (name.length :: (name ++ (value.length :: (value ++ rest)))) =
      some (name, value.length :: (value ++ rest)) := readLiteral_append _ _ hn
  simp [literalField, decodeField, h1, readLiteral_append _ _ hv]

/-- One decoded field uses one unit of fuel. -/
theorem decodeBlockAux_step (fuel : Nat) (bs rest : Bytes) (field : Bytes × Bytes)
    (h : decodeField bs = some (field, rest)) :
    decodeBlockAux (fuel + 1) bs = (decodeBlockAux fuel rest).map (field :: ·) := by
  cases bs with
  | nil => simp [decodeField] at h
  | cons b bs => simp [decodeBlockAux, h]

/-- More fuel does not change a successful decoding. -/
theorem decodeBlockAux_mono (k : Nat) :
    ∀ (bs : Bytes) (l : List (Bytes × Bytes)), decodeBlockAux k bs = some l →
      ∀ m, k ≤ m → decodeBlockAux m bs = some l := by
  induction k with
  | zero =>
    intro bs l h m _
    cases bs with
    | nil => cases m <;> simpa [decodeBlockAux] using h
    | cons b bs => simp [decodeBlockAux] at h
  | succ k ih =>
    intro bs l h m hm
    cases bs with
    | nil => cases m <;> simpa [decodeBlockAux] using h
    | cons b bs =>
      obtain ⟨m', rfl⟩ : ∃ m', m = m' + 1 := ⟨m - 1, by omega⟩
      simp only [decodeBlockAux] at h ⊢
      cases hd : decodeField (b :: bs) with
      | none => simp [hd] at h
      | some fr =>
        obtain ⟨field, rest⟩ := fr
        simp only [hd, Option.map_eq_some'] at h ⊢
        obtain ⟨l', hl', rfl⟩ := h
        exact ⟨l', ih rest l' hl' m' (by omega), rfl⟩

/-- A name that starts with none of the five tokens sets no flag. -/
theorem withholdFlags_none (cn : Bytes)
    (h1 : ¬ lit ":scheme" <+: cn) (h2 : ¬ lit ":authority" <+: cn)
    (h3 : ¬ lit ":method" <+: cn) (h4 : ¬ lit ":path" <+: cn)
    (h5 : ¬ lit "user-agent" <+: cn) :
    withholdFlags cn = ⟨false, false, false, false, false⟩ := by
  obtain ⟨k1, k2, k3, k4, k5⟩ := withholdFlags_cases cn
  rcases hw : withholdFlags cn with ⟨a, b, c, d, e⟩
  rw [hw] at k1 k2 k3 k4 k5
  simp only at k1 k2 k3 k4 k5
  have a0 : a = false := by
    cases a
    · rfl
    · exact absurd (k1.mp rfl) h1
  have b0 : b = false := by
    cases b
    · rfl
    · exact absurd (k2.mp rfl) h2
  have c0 : c = false := by
    cases c
    · rfl
    · exact absurd (k4.mp rfl) h4
  have d0 : d = false := by
    cases d
    · rfl
    · exact absurd (k3.mp rfl) h3
  have e0 : e = false := by
    cases e
    · rfl
    · exact absurd (k5.mp rfl) h5
  rw [a0, b0, c0, d0, e0]

/-- The full list of fields, with literals of at most 126 bytes, decodes to its entries. -/
theorem decodeBlock_orderedFields (ua h p cn cv m : Bytes)
    (additional : Option (Bytes × Bytes))
    (hh : h.length ≤ 126) (hm : m.length ≤ 126) (hp : p.length ≤ 126)
    (hcn : cn.length ≤ 126) (hcv : cv.length ≤ 126) (hua : ua.length ≤ 126)
    (hadd : ∀ nv ∈ additional, nv.1.length ≤ 126 ∧ nv.2.length ≤ 126) :
    decodeBlock (orderedFields List.length ⟨false, false, false, false, false⟩
        ua h p cn cv m additional) =
      some ([(lit ":scheme", lit "https"), (lit ":authority", h), (lit ":method", m),
          (lit ":path", p), (cn, cv)] ++ additional.toList ++
        [(lit "user-agent", ua), (lit "accept", lit "*/*")]) := by
  have hua' : (lit "user-agent").length ≤ 126 := by decide
  have hac : (lit "accept").length ≤ 126 := by decide
  have hst : (lit "*/*").length ≤ 126 := by decide
  have tail : ∀ k, decodeBlockAux (k + 2)
      (literalField List.length (lit "user-agent") ua ++
        literalField List.length (lit "accept") (lit "*/*")) =
      some [(lit "user-agent", ua), (lit "accept", lit "*/*")] := by
    intro k
    rw [decodeBlockAux_step _ _ _ _ (decodeField_literal _ _ _ hua' hua)]
    have := decodeField_literal (lit "accept") (lit "*/*") [] hac hst
    rw [List.append_nil] at this
    rw [decodeBlockAux_step _ _ _ _ this]
    cases k <;> simp [decodeBlockAux]
  have opt : ∀ k, decodeBlockAux (k + 3)
      (optionalField List.length additional ++
        (literalField List.length (lit "user-agent") ua ++
          literalField List.length (lit "accept") (lit "*/*"))) =
      some (additional.toList ++ [(lit "user-agent", ua), (lit "accept", lit "*/*")]) := by
    intro k
    cases additional with
    | none => simpa [optionalField] using tail (k + 1)
    | some nv =>
      obtain ⟨h1, h2⟩ := hadd nv rfl
      simp only [optionalField]
      rw [decodeBlockAux_step _ _ _ _ (decodeField_literal _ _ _ h1 h2), tail k]
      simp
  have main : decodeBlockAux 8 (orderedFields List.length ⟨false, false, false, false, false⟩
        ua h p cn cv m additional) =
      some ([(lit ":scheme", lit "https"), (lit ":authority", h), (lit ":method", m),
          (lit ":path", p), (cn, cv)] ++ additional.toList ++
        [(lit "user-agent", ua), (lit "accept", lit "*/*")]) := by
    simp only [orderedFields, Bool.false_eq_true, if_false, List.append_assoc]
    rw [decodeBlockAux_step _ _ _ _ (decodeField_scheme _),
      decodeBlockAux_step _ _ _ _ (decodeField_indexedName 0x41 (lit ":authority") h _ hh
        (Or.inl ⟨rfl, rfl⟩)),
      decodeBlockAux_step _ _ _ _ (decodeField_indexedName 0x42 (lit ":method") m _ hm
        (Or.inr (Or.inl ⟨rfl, rfl⟩))),
      decodeBlockAux_step _ _ _ _ (decodeField_indexedName 0x44 (lit ":path") p _ hp
        (Or.inr (Or.inr ⟨rfl, rfl⟩))),
      decodeBlockAux_step _ _ _ _ (decodeField_literal cn cv _ hcn hcv), opt 0]
    simp
  unfold decodeBlock
  apply decodeBlockAux_mono 8 _ _ main
  simp [orderedFields, schemeField, indexedNameField, literalField, lit_userAgent, lit_accept,
    lit_star]
  omega

/-! ## Claim C11 -/

/-- The callback keeps the earlier status when no decoded field is named `:status`. -/
theorem retainStatus_none (fields : List (Bytes × Bytes)) :
    ∀ st : Bytes, (∀ hf ∈ fields, hf.1 ≠ lit ":status") → retainStatus st fields = st := by
  induction fields with
  | nil => intro st _; rfl
  | cons f fs ih =>
    intro st h
    have h1 : f.1 ≠ lit ":status" := h f (List.mem_cons_self _ _)
    have h2 : retainStatus st (f :: fs) = retainStatus st fs := by
      simp [retainStatus, h1]
    rw [h2]
    exact ih st (fun g hg => h g (List.mem_cons_of_mem _ hg))

/-- The callback keeps the value of the last decoded field named `:status`. -/
theorem retainStatus_last (st value : Bytes) (pre post : List (Bytes × Bytes))
    (h : ∀ hf ∈ post, hf.1 ≠ lit ":status") :
    retainStatus st (pre ++ (lit ":status", value) :: post) = value := by
  have h1 : retainStatus st (pre ++ (lit ":status", value) :: post) =
      retainStatus value post := by
    simp [retainStatus, List.foldl_append]
  rw [h1]
  exact retainStatus_none post value h

/-- Claim C11: for every classifier state and target stream id, a HEADERS frame whose
flags byte is `0x5` makes the loop send exactly one message,
`"SUCCESS [" ++ status ++ "] Length: 0"`, when its stream id is the target, and no message
when it is not; the loop goes on. The status is the `:status` value retained after
decoding this frame's header block: the value of the last `:status` field the decoder
reports for the block, and the status retained before when it reports none. With a
block that carries `:status: 200` the message is `"SUCCESS [200] Length: 0"`. -/
theorem C11_headers_end_stream {D : Type} (hpackWrite : D → Bytes → D × List (Bytes × Bytes))
    (scanJob : ScanJob) (s : LoopState D) (streamId : Nat) (headerBlockFragment : Bytes) :
    (handleFrame hpackWrite scanJob s
        (InFrame.HeadersFrame streamId 0x5 headerBlockFragment)).1.hpackstatus =
      retainStatus s.hpackstatus (hpackWrite s.hpackDecoder headerBlockFragment).2 ∧
    (streamId = scanJob.StreamId →
      (handleFrame hpackWrite scanJob s
        (InFrame.HeadersFrame streamId 0x5 headerBlockFragment)).2.1 =
        [lit "SUCCESS [" ++
          retainStatus s.hpackstatus (hpackWrite s.hpackDecoder headerBlockFragment).2 ++
          lit "] Length: 0"]) ∧
    (streamId ≠ scanJob.StreamId →
      (handleFrame hpackWrite scanJob s
        (InFrame.HeadersFrame streamId 0x5 headerBlockFragment)).2.1 = []) ∧
    (handleFrame hpackWrite scanJob s
        (InFrame.HeadersFrame streamId 0x5 headerBlockFragment)).2.2 = true ∧
    handleLoop hpackWrite scanJob s
        [ReadResult.frame (InFrame.HeadersFrame streamId 0x5 headerBlockFragment)] =
      handleFrame hpackWrite scanJob s
        (InFrame.HeadersFrame streamId 0x5 headerBlockFragment) ∧
    (∀ (value : Bytes) (pre post : List (Bytes × Bytes)),
      (hpackWrite s.hpackDecoder headerBlockFragment).2 =
          pre ++ (lit ":status", value) :: post →
      (∀ hf ∈ post, hf.1 ≠ lit ":status") →
      streamId = scanJob.StreamId →
      (handleFrame hpackWrite scanJob s
        (InFrame.HeadersFrame streamId 0x5 headerBlockFragment)).2.1 =
        [lit "SUCCESS [" ++ value ++ lit "] Length: 0"]) ∧
    ((∀ hf ∈ (hpackWrite s.hpackDecoder headerBlockFragment).2, hf.1 ≠ lit ":status") →
      streamId = scanJob.StreamId →
      (handleFrame hpackWrite scanJob s
        (InFrame.HeadersFrame streamId 0x5 headerBlockFragment)).2.1 =
        [lit "SUCCESS [" ++ s.hpackstatus ++ lit "] Length: 0"]) ∧
    retainStatus (lit "404") [(lit "server", lit "x"), (lit ":status", lit "200")] = lit "200" ∧
    (classify staticDecoder () 1 []
      [InFrame.HeadersFrame 1 0x5 (literalField List.length (lit ":status") (lit "200"))]).2.1 =
      [lit "SUCCESS [200] Length: 0"] ∧
    (classify staticDecoder () 1 []
      [InFrame.HeadersFrame 3 0x5 (literalField List.length (lit ":status") (lit "200"))]).2.1 =
      [] := by
  have hsent : streamId = scanJob.StreamId →
      (handleFrame hpackWrite scanJob s
        (InFrame.HeadersFrame streamId 0x5 headerBlockFragment)).2.1 =
        [lit "SUCCESS [" ++
          retainStatus s.hpackstatus (hpackWrite s.hpackDecoder headerBlockFragment).2 ++
          lit "] Length: 0"] := by
    intro h; simp [handleFrame, InFrame.streamId, h]
  refine ⟨?_, hsent, ?_, ?_, handleLoop_single _ _ _ _, ?_, ?_, by decide, by decide,
    by decide⟩
  · by_cases h : streamId = scanJob.StreamId <;> simp [handleFrame, InFrame.streamId, h]
  · intro h; simp [handleFrame, InFrame.streamId, h]
  · by_cases h : streamId = scanJob.StreamId <;> simp [handleFrame, InFrame.streamId, h]
  · intro value pre post hfields hpost htarget
    rw [hsent htarget, hfields, retainStatus_last _ _ _ _ hpost]
  · intro hnone htarget
    rw [hsent htarget, retainStatus_none _ _ hnone]

/-! ## Claim C12 -/

/-- Claim C12, on the code: from the initial state, with no keyword, after any sequence of
DATA frames the loop is still running with an empty retained status; a further DATA frame
whose END_STREAM bit is clear, or on another stream, sends nothing; a further DATA frame
on the target stream whose flags byte is exactly `0x1` sends exactly one message
`"SUCCESS [<status>] Length: <n>"`, `n` the decimal sum of the payload lengths of all DATA
frames so far on the target stream; payloads of 3 then 5 bytes give `Length: 8`. But a
further DATA frame on the target stream with flags `0x9` (END_STREAM and PADDED) sends
nothing, where the claim has one message. -/
theorem C12_data_length {D : Type} (hpackWrite : D → Bytes → D × List (Bytes × Bytes))
    (hpackDecoder : D) (target : Nat) (before : List (Nat × Nat × Bytes))
    (streamId flags : Nat) (data : Bytes) :
    (classify hpackWrite hpackDecoder target [] (before.map dataFrame)).2.2 = true ∧
    (classify hpackWrite hpackDecoder target [] (before.map dataFrame)).1.hpackstatus = [] ∧
    (flags % 2 = 0 →
      (classify hpackWrite hpackDecoder target []
        (before.map dataFrame ++ [InFrame.DataFrame streamId flags data])).2.1 =
      (classify hpackWrite hpackDecoder target [] (before.map dataFrame)).2.1) ∧
    (streamId ≠ target →
      (classify hpackWrite hpackDecoder target []
        (before.map dataFrame ++ [InFrame.DataFrame streamId flags data])).2.1 =
      (classify hpackWrite hpackDecoder target [] (before.map dataFrame)).2.1) ∧
    (classify hpackWrite hpackDecoder target []
        (before.map dataFrame ++ [InFrame.DataFrame target 0x1 data])).2.1 =
      (classify hpackWrite hpackDecoder target [] (before.map dataFrame)).2.1 ++
        [lit "SUCCESS [" ++
          (classify hpackWrite hpackDecoder target [] (before.map dataFrame)).1.hpackstatus ++
          lit "] Length: " ++
          sprintfD (bytesOn target
            (before.map dataFrame ++ [InFrame.DataFrame target 0x1 data]))] ∧
    (classify hpackWrite hpackDecoder target []
        (before.map dataFrame ++ [InFrame.DataFrame target 0x9 data])).2.1 =
      (classify hpackWrite hpackDecoder target [] (before.map dataFrame)).2.1 ∧
    (∀ a b : Bytes, a.length = 3 → b.length = 5 →
      (classify hpackWrite hpackDecoder target []
        [InFrame.DataFrame target 0x0 a, InFrame.DataFrame target 0x1 b]).2.1 =
      [lit "SUCCESS [] Length: 8"]) := by
  have hg := dataFrame_not_goAway before
  obtain ⟨_, hc, hr⟩ := classify_invariant hpackWrite hpackDecoder target [] _ hg
  have hs := classify_data_status hpackWrite hpackDecoder target [] before
  refine ⟨hr, hs, ?_, ?_, ?_, ?_, ?_⟩
  · intro h0
    have : flags ≠ 1 := by omega
    rw [classify_snoc hpackWrite hpackDecoder target [] _ hg, handleFrame_data]
    simp [this]
  · intro hne
    rw [classify_snoc hpackWrite hpackDecoder target [] _ hg, handleFrame_data]
    simp [hne]
  · rw [classify_snoc hpackWrite hpackDecoder target [] _ hg, handleFrame_data]
    simp [hc, bytesOn_snoc, dataOn]
  · rw [classify_snoc hpackWrite hpackDecoder target [] _ hg, handleFrame_data]
    simp
  · intro a b ha hb
    have e : [InFrame.DataFrame target 0x0 a, InFrame.DataFrame target 0x1 b] =
        [InFrame.DataFrame target 0x0 a] ++ [InFrame.DataFrame target 0x1 b] := rfl
    have hg1 : ∀ f ∈ [InFrame.DataFrame target 0x0 a], f.isGoAway = false := by
      intro f hf
      simp at hf
      subst hf
      rfl
    obtain ⟨_, hc1, _⟩ := classify_invariant hpackWrite hpackDecoder target [] _ hg1
    have hs1 := classify_data_status hpackWrite hpackDecoder target [] [(target, 0, a)]
    have hsent1 : (classify hpackWrite hpackDecoder target []
        [InFrame.DataFrame target 0x0 a]).2.1 = [] := by
      have := classify_snoc hpackWrite hpackDecoder target [] [] (by simp)
        (InFrame.DataFrame target 0x0 a)
      simp only [List.nil_append] at this
      rw [this, handleFrame_data]
      simp [classify_eq, framesRead, handleLoop]
    simp only [List.map_cons, List.map_nil, dataFrame] at hs1
    rw [e, classify_snoc hpackWrite hpackDecoder target [] _ hg1, handleFrame_data]
    have h8 : sprintfD 8 = lit "8" := by decide
    have hm : lit "SUCCESS [" ++ ([] : Bytes) ++ lit "] Length: " ++ lit "8" =
        lit "SUCCESS [] Length: 8" := by decide
    simp [hc1, hs1, hsent1, bytesOn, dataOn, ha, hb, h8]
    simpa using hm

/-! ## Claim C13 -/

/-- Claim C13, as stated, fails: with target stream 1 and keyword `"token"`, a DATA frame
on stream 3 carrying `"token"` makes the later END_STREAM frame of stream 1 (body `"ok"`)
report `Keyword: True`; and an END_STREAM DATA frame on stream 3 clears what stream 1 had
accumulated, so that stream 1, whose own body is `"tokenok"`, reports `Keyword: False`. -/
theorem C13_counterexample :
    (classify noFields () 1 (lit "token")
      [InFrame.DataFrame 3 0x0 (lit "token"), InFrame.DataFrame 1 0x1 (lit "ok")]).2.1 =
      [lit "SUCCESS [] - Keyword: True - Length: 2"] ∧
    ownBody 1 [InFrame.DataFrame 3 0x0 (lit "token")] ++ lit "ok" = lit "ok" ∧
    ¬ lit "token" <:+: lit "ok" ∧
    (classify noFields () 1 (lit "token")
      [InFrame.DataFrame 1 0x0 (lit "token"), InFrame.DataFrame 3 0x1 (lit "x"),
        InFrame.DataFrame 1 0x1 (lit "ok")]).2.1 =
      [lit "SUCCESS [] - Keyword: False - Length: 7"] ∧
    ownBody 1 [InFrame.DataFrame 1 0x0 (lit "token"), InFrame.DataFrame 3 0x1 (lit "x")] ++
      lit "ok" = lit "tokenok" ∧
    lit "token" <:+: lit "tokenok" := by
  decide

/-- Claim C13 (amended): for every frame sequence without a GOAWAY, every non-empty keyword
and every following DATA frame on the target stream with flags byte `0x1`, the reported
keyword flag is `True` exactly when the keyword is a substring of the connection-wide
accumulated body: the payloads of the DATA frames on any stream received since the last
DATA frame with flags byte `0x1` on any stream (or since the loop started), followed by
this frame's payload. -/
theorem C13_shared_body {D : Type} (hpackWrite : D → Bytes → D × List (Bytes × Bytes))
    (hpackDecoder : D) (target : Nat) (keyword : Bytes) (before : List InFrame)
    (data : Bytes) (hk : keyword ≠ []) (hrun : ∀ f ∈ before, f.isGoAway = false) :
    (keyword <:+: sharedBody before ++ data →
      (classify hpackWrite hpackDecoder target keyword
        (before ++ [InFrame.DataFrame target 0x1 data])).2.1 =
      (classify hpackWrite hpackDecoder target keyword before).2.1 ++
        [lit "SUCCESS [" ++ (classify hpackWrite hpackDecoder target keyword before).1.hpackstatus
          ++ lit "] - Keyword: True - Length: " ++
          sprintfD (bytesOn target (before ++ [InFrame.DataFrame target 0x1 data]))]) ∧
    (¬ keyword <:+: sharedBody before ++ data →
      (classify hpackWrite hpackDecoder target keyword
        (before ++ [InFrame.DataFrame target 0x1 data])).2.1 =
      (classify hpackWrite hpackDecoder target keyword before).2.1 ++
        [lit "SUCCESS [" ++ (classify hpackWrite hpackDecoder target keyword before).1.hpackstatus
          ++ lit "] - Keyword: False - Length: " ++
          sprintfD (bytesOn target (before ++ [InFrame.DataFrame target 0x1 data]))]) := by
  obtain ⟨hb, hc, _⟩ := classify_invariant hpackWrite hpackDecoder target keyword before hrun
  constructor
  · intro h
    have h' := (stringsContains_iff _ _).mpr h
    rw [classify_snoc hpackWrite hpackDecoder target keyword before hrun, handleFrame_data]
    simp [hk, hb, hc, h', bytesOn_snoc, dataOn]
  · intro h
    have h' : stringsContains (sharedBody before ++ data) keyword = false := by
      cases hx : stringsContains (sharedBody before ++ data) keyword with
      | false => rfl
      | true => exact absurd ((stringsContains_iff _ _).mp hx) h
    rw [classify_snoc hpackWrite hpackDecoder target keyword before hrun, handleFrame_data]
    simp [hk, hb, hc, h', bytesOn_snoc, dataOn]

/-- The amended claim C13 at a concrete run. -/
theorem C13_shared_body_witness :
    ((lit "token") ≠ []) ∧
    (∀ f ∈ [InFrame.SettingsFrame 0, InFrame.DataFrame 3 0x0 (lit "a to"), InFrame.DataFrame 1 0x0 (lit "ken")], f.isGoAway = false) ∧
    ((lit "token") <:+: sharedBody [InFrame.SettingsFrame 0, InFrame.DataFrame 3 0x0 (lit "a to"), InFrame.DataFrame 1 0x0 (lit "ken")] ++ (lit " b") →
      (classify noFields () 1 (lit "token")
        ([InFrame.SettingsFrame 0, InFrame.DataFrame 3 0x0 (lit "a to"), InFrame.DataFrame 1 0x0 (lit "ken")] ++ [InFrame.DataFrame 1 0x1 (lit " b")])).2.1 =
      (classify noFields () 1 (lit "token") [InFrame.SettingsFrame 0, InFrame.DataFrame 3 0x0 (lit "a to"), InFrame.DataFrame 1 0x0 (lit "ken")]).2.1 ++
        [lit "SUCCESS [" ++ (classify noFields () 1 (lit "token") [InFrame.SettingsFrame 0, InFrame.DataFrame 3 0x0 (lit "a to"), InFrame.DataFrame 1 0x0 (lit "ken")]).1.hpackstatus
          ++ lit "] - Keyword: True - Length: " ++
          sprintfD (bytesOn 1 ([InFrame.SettingsFrame 0, InFrame.DataFrame 3 0x0 (lit "a to"), InFrame.DataFrame 1 0x0 (lit "ken")] ++ [InFrame.DataFrame 1 0x1 (lit " b")]))]) ∧
    (¬ (lit "token") <:+: sharedBody [InFrame.SettingsFrame 0, InFrame.DataFrame 3 0x0 (lit "a to"), InFrame.DataFrame 1 0x0 (lit "ken")] ++ (lit " b") →
      (classify noFields () 1 (lit "token")
        ([InFrame.SettingsFrame 0, InFrame.DataFrame 3 0x0 (lit "a to"), InFrame.DataFrame 1 0x0 (lit "ken")] ++ [InFrame.DataFrame 1 0x1 (lit " b")])).2.1 =
      (classify noFields () 1 (lit "token") [InFrame.SettingsFrame 0, InFrame.DataFrame 3 0x0 (lit "a to"), InFrame.DataFrame 1 0x0 (lit "ken")]).2.1 ++
        [lit "SUCCESS [" ++ (classify noFields () 1 (lit "token") [InFrame.SettingsFrame 0, InFrame.DataFrame 3 0x0 (lit "a to"), InFrame.DataFrame 1 0x0 (lit "ken")]).1.hpackstatus
          ++ lit "] - Keyword: False - Length: " ++
          sprintfD (bytesOn 1 ([InFrame.SettingsFrame 0, InFrame.DataFrame 3 0x0 (lit "a to"), InFrame.DataFrame 1 0x0 (lit "ken")] ++ [InFrame.DataFrame 1 0x1 (lit " b")]))]) :=
  ⟨by decide, by decide,
    C13_shared_body noFields () 1 (lit "token") [InFrame.SettingsFrame 0, InFrame.DataFrame 3 0x0 (lit "a to"), InFrame.DataFrame 1 0x0 (lit "ken")] (lit " b")
      (by decide) (by decide)⟩

/-! ## Claim C14 -/

/-- Claim C14, as stated, fails: the messages the code sends read `Keyword: True` and
`Keyword: False`, with a capital letter, not `Keyword: true` and `Keyword: false`. -/
theorem C14_counterexample :
    (classify noFields () 1 (lit "token") [InFrame.DataFrame 1 0x1 (lit "a token")]).2.1 =
      [lit "SUCCESS [] - Keyword: True - Length: 7"] ∧
    lit "SUCCESS [] - Keyword: True - Length: 7" ≠
      lit "SUCCESS [" ++ [] ++ lit "] - Keyword: true - Length: " ++ sprintfD 7 ∧
    (classify noFields () 1 (lit "token") [InFrame.DataFrame 1 0x1 (lit "nothing")]).2.1 =
      [lit "SUCCESS [] - Keyword: False - Length: 7"] ∧
    lit "SUCCESS [] - Keyword: False - Length: 7" ≠
      lit "SUCCESS [" ++ [] ++ lit "] - Keyword: false - Length: " ++ sprintfD 7 := by
  decide

/-- Claim C14 (amended): for every state and every DATA frame on the target stream with
flags byte `0x1`, classified with a non-empty keyword, the message sent is exactly
`"SUCCESS [" ++ status ++ "] - Keyword: True - Length: " ++ decimal(bytesReceived)` when
the keyword occurs in the accumulated body and the same with `Keyword: False` when it does
not, `bytesReceived` being the stream's count with this frame's payload added. -/
theorem C14_keyword_message {D : Type} (hpackWrite : D → Bytes → D × List (Bytes × Bytes))
    (scanJob : ScanJob) (s : LoopState D) (data : Bytes) (hk : scanJob.Keyword ≠ []) :
    (handleFrame hpackWrite scanJob s
      (InFrame.DataFrame scanJob.StreamId 0x1 data)).1.streamContentCount scanJob.StreamId =
      s.streamContentCount scanJob.StreamId + data.length ∧
    (scanJob.Keyword <:+: s.hpackBody ++ data →
      (handleFrame hpackWrite scanJob s (InFrame.DataFrame scanJob.StreamId 0x1 data)).2.1 =
        [lit "SUCCESS [" ++ s.hpackstatus ++ lit "] - Keyword: True - Length: " ++
          sprintfD (s.streamContentCount scanJob.StreamId + data.length)]) ∧
    (¬ scanJob.Keyword <:+: s.hpackBody ++ data →
      (handleFrame hpackWrite scanJob s (InFrame.DataFrame scanJob.StreamId 0x1 data)).2.1 =
        [lit "SUCCESS [" ++ s.hpackstatus ++ lit "] - Keyword: False - Length: " ++
          sprintfD (s.streamContentCount scanJob.StreamId + data.length)]) := by
  refine ⟨?_, ?_, ?_⟩
  · simp [handleFrame, InFrame.streamId]
  · intro h
    have h' := (stringsContains_iff _ _).mpr h
    rw [handleFrame_data]
    simp [hk, h']
  · intro h
    have h' : stringsContains (s.hpackBody ++ data) scanJob.Keyword = false := by
      cases hx : stringsContains (s.hpackBody ++ data) scanJob.Keyword with
      | false => rfl
      | true => exact absurd ((stringsContains_iff _ _).mp hx) h
    rw [handleFrame_data]
    simp [hk, h']

/-- The amended claim C14 at a concrete frame. -/
theorem C14_keyword_message_witness :
    ((lit "token") ≠ []) ∧
    (handleFrame noFields { Conn := none, StreamId := 1, Keyword := lit "token" } (initialState ())
      (InFrame.DataFrame 1 0x1 (lit "a token"))).1.streamContentCount 1 =
      (fun _ => 0) 1 + (lit "a token").length ∧
    ((lit "token") <:+: ([] : Bytes) ++ (lit "a token") →
      (handleFrame noFields { Conn := none, StreamId := 1, Keyword := lit "token" } (initialState ()) (InFrame.DataFrame 1 0x1 (lit "a token"))).2.1 =
        [lit "SUCCESS [" ++ ([] : Bytes) ++ lit "] - Keyword: True - Length: " ++
          sprintfD ((fun _ => 0) 1 + (lit "a token").length)]) ∧
    (¬ (lit "token") <:+: ([] : Bytes) ++ (lit "a token") →
      (handleFrame noFields { Conn := none, StreamId := 1, Keyword := lit "token" } (initialState ()) (InFrame.DataFrame 1 0x1 (lit "a token"))).2.1 =
        [lit "SUCCESS [" ++ ([] : Bytes) ++ lit "] - Keyword: False - Length: " ++
          sprintfD ((fun _ => 0) 1 + (lit "a token").length)]) :=
  ⟨by decide,
    C14_keyword_message noFields { Conn := none, StreamId := 1, Keyword := lit "token" } (initialState ()) (lit "a token")
      (by decide)⟩

/-! ## Claim C15 -/

/-- Claim C15, as stated, fails: a GOAWAY frame that arrives with stream id 7 is not
returned by the framer as a frame but as a connection error, so the loop, which has sent
`"SUCCESS [] Length: 2"` for the DATA frame before it, returns without sending
`"GOAWAY"`. -/
theorem C15_counterexample :
    readGoAway 7 = ReadResult.readError ∧
    (HandleConnection noFields ()
      { Conn := some (framesRead [InFrame.SettingsFrame 0, InFrame.DataFrame 1 0x1 (lit "hi")]
          ++ readGoAway 7 ::
            [ReadResult.frame (InFrame.DataFrame 1 0x1 (lit "more")), ReadResult.eof]),
        StreamId := 1, Keyword := [] }).2 = ([lit "SUCCESS [] Length: 2"], false) ∧
    lit "SUCCESS [] Length: 2" ≠ lit "GOAWAY" := by
  decide

/-- Claim C15 (amended): whatever the state and the target stream id, when the first
GOAWAY frame of the input arrives with stream id 0, the only stream id for which the
framer returns a GOAWAY frame, the loop sends `"GOAWAY"` and returns: the state is the one
reached before the GOAWAY, `"GOAWAY"` is the last message, and what comes after the GOAWAY
frame has no effect. A GOAWAY frame that arrives with another stream id is a read error:
the loop returns in the state reached before it and sends nothing for it. -/
theorem C15_goaway_stops {D : Type} (hpackWrite : D → Bytes → D × List (Bytes × Bytes))
    (scanJob : ScanJob) (s : LoopState D) (before : List InFrame)
    (after : List ReadResult) (hfirst : ∀ f ∈ before, f.isGoAway = false) :
    readGoAway 0 = ReadResult.frame InFrame.GoAwayFrame ∧
    handleLoop hpackWrite scanJob s
        (framesRead before ++ readGoAway 0 :: after) =
      ((handleLoop hpackWrite scanJob s (framesRead before)).1,
        (handleLoop hpackWrite scanJob s (framesRead before)).2.1 ++ [lit "GOAWAY"],
        false) ∧
    (handleLoop hpackWrite scanJob s
        (framesRead before ++ readGoAway 0 :: after)).2.1.getLast?
      = some (lit "GOAWAY") ∧
    (∀ streamId : Nat, streamId ≠ 0 →
      handleLoop hpackWrite scanJob s
          (framesRead before ++ readGoAway streamId :: after) =
        ((handleLoop hpackWrite scanJob s (framesRead before)).1,
          (handleLoop hpackWrite scanJob s (framesRead before)).2.1,
          false)) := by
  have h : handleLoop hpackWrite scanJob s
        (framesRead before ++ readGoAway 0 :: after) =
      ((handleLoop hpackWrite scanJob s (framesRead before)).1,
        (handleLoop hpackWrite scanJob s (framesRead before)).2.1 ++ [lit "GOAWAY"],
        false) := by
    rw [handleLoop_snoc hpackWrite scanJob before hfirst]
    simp [readGoAway, handleLoop, handleFrame]
  refine ⟨rfl, h, ?_, ?_⟩
  · rw [h]
    simp
  · intro streamId hne
    rw [handleLoop_snoc hpackWrite scanJob before hfirst]
    simp [readGoAway, hne, handleLoop]

/-- The amended claim C15 at a concrete run. -/
theorem C15_goaway_stops_witness :
    (∀ f ∈ [InFrame.SettingsFrame 0, InFrame.DataFrame 1 0x1 (lit "hi")], f.isGoAway = false) ∧
    readGoAway 0 = ReadResult.frame InFrame.GoAwayFrame ∧
    handleLoop noFields { Conn := none, StreamId := 1, Keyword := [] } (initialState ())
        (framesRead [InFrame.SettingsFrame 0, InFrame.DataFrame 1 0x1 (lit "hi")] ++ readGoAway 0 :: [ReadResult.frame (InFrame.DataFrame 1 0x1 (lit "more")), ReadResult.eof]) =
      ((handleLoop noFields { Conn := none, StreamId := 1, Keyword := [] } (initialState ()) (framesRead [InFrame.SettingsFrame 0, InFrame.DataFrame 1 0x1 (lit "hi")])).1,
        (handleLoop noFields { Conn := none, StreamId := 1, Keyword := [] } (initialState ()) (framesRead [InFrame.SettingsFrame 0, InFrame.DataFrame 1 0x1 (lit "hi")])).2.1 ++ [lit "GOAWAY"],
        false) ∧
    (handleLoop noFields { Conn := none, StreamId := 1, Keyword := [] } (initialState ())
        (framesRead [InFrame.SettingsFrame 0, InFrame.DataFrame 1 0x1 (lit "hi")] ++ readGoAway 0 :: [ReadResult.frame (InFrame.DataFrame 1 0x1 (lit "more")), ReadResult.eof])).2.1.getLast?
      = some (lit "GOAWAY") ∧
    (∀ streamId : Nat, streamId ≠ 0 →
      handleLoop noFields { Conn := none, StreamId := 1, Keyword := [] } (initialState ())
          (framesRead [InFrame.SettingsFrame 0, InFrame.DataFrame 1 0x1 (lit "hi")] ++ readGoAway streamId :: [ReadResult.frame (InFrame.DataFrame 1 0x1 (lit "more")), ReadResult.eof]) =
        ((handleLoop noFields { Conn := none, StreamId := 1, Keyword := [] } (initialState ()) (framesRead [InFrame.SettingsFrame 0, InFrame.DataFrame 1 0x1 (lit "hi")])).1,
          (handleLoop noFields { Conn := none, StreamId := 1, Keyword := [] } (initialState ()) (framesRead [InFrame.SettingsFrame 0, InFrame.DataFrame 1 0x1 (lit "hi")])).2.1,
          false)) :=
  ⟨by decide,
    C15_goaway_stops noFields { Conn := none, StreamId := 1, Keyword := [] } (initialState ())
      [InFrame.SettingsFrame 0, InFrame.DataFrame 1 0x1 (lit "hi")]
      [ReadResult.frame (InFrame.DataFrame 1 0x1 (lit "more")), ReadResult.eof]
      (by decide)⟩

/-! ## Claim C16 -/

/-- Claim C16: for every state, a RST_STREAM frame sends exactly one message
`"RST_STREAM: " ++ name(errorCode)` when its stream id is the target and the error code is
not NO_ERROR (code 0), sends nothing when the code is NO_ERROR or the stream id is not the
target, and in every case leaves the state unchanged and the loop running. -/
theorem C16_rst_stream {D : Type} (hpackWrite : D → Bytes → D × List (Bytes × Bytes))
    (scanJob : ScanJob) (s : LoopState D) (streamId errCode : Nat) :
    (streamId = scanJob.StreamId → errCode ≠ 0 →
      (handleFrame hpackWrite scanJob s (InFrame.RSTStreamFrame streamId errCode)).2.1 =
        [lit "RST_STREAM: " ++ ErrCodeString errCode]) ∧
    (errCode = 0 →
      (handleFrame hpackWrite scanJob s (InFrame.RSTStreamFrame streamId errCode)).2.1 = []) ∧
    (streamId ≠ scanJob.StreamId →
      (handleFrame hpackWrite scanJob s (InFrame.RSTStreamFrame streamId errCode)).2.1 = []) ∧
    (handleFrame hpackWrite scanJob s (InFrame.RSTStreamFrame streamId errCode)).1 = s ∧
    (handleFrame hpackWrite scanJob s (InFrame.RSTStreamFrame streamId errCode)).2.2 = true ∧
    (ErrCodeString errCode = lit "NO_ERROR" ↔ errCode = 0) := by
  have hz := errCodeString_noError errCode
  refine ⟨?_, ?_, ?_, ?_, ?_, hz⟩
  · intro h1 h2
    have : ErrCodeString errCode ≠ lit "NO_ERROR" := fun h => h2 (hz.mp h)
    simp [handleFrame, InFrame.streamId, h1, this]
  · intro h
    simp [handleFrame, InFrame.streamId, hz.mpr h]
  · intro h
    simp [handleFrame, InFrame.streamId, h]
  · simp only [handleFrame]; split_ifs <;> rfl
  · simp only [handleFrame]; split_ifs <;> rfl

/-! ## Claim C17 -/

/-- Claim C17: `EstablishH2Connection` on a `nil` connection returns an error and writes
nothing; on a connection it writes the 24-byte preface, then `generateSettingsFrame()`,
then `generateWindowUpdateFrame(0)`, stops at the first write that fails and returns that
write's error, and returns `nil` exactly when the three writes succeed, the bytes written
being then the concatenation of the three. -/
theorem C17_handshake_writes (fails : Nat → Option String) (conn : TlsConn) :
    (lit "PRI * HTTP/2.0\r\n\r\nSM\r\n\r\n").length = 24 ∧
    EstablishH2Connection fails none = (none, some "connection is nil") ∧
    (∀ e, fails conn.calls.length = some e →
      EstablishH2Connection fails (some conn) =
        (some { written := conn.written,
                calls := conn.calls ++ [lit "PRI * HTTP/2.0\r\n\r\nSM\r\n\r\n"] }, some e)) ∧
    (∀ e, fails conn.calls.length = none → fails (conn.calls.length + 1) = some e →
      EstablishH2Connection fails (some conn) =
        (some { written := conn.written ++ lit "PRI * HTTP/2.0\r\n\r\nSM\r\n\r\n",
                calls := conn.calls ++
                  [lit "PRI * HTTP/2.0\r\n\r\nSM\r\n\r\n", generateSettingsFrame] },
          some e)) ∧
    (∀ e, fails conn.calls.length = none → fails (conn.calls.length + 1) = none →
      fails (conn.calls.length + 2) = some e →
      EstablishH2Connection fails (some conn) =
        (some { written := conn.written ++ lit "PRI * HTTP/2.0\r\n\r\nSM\r\n\r\n" ++
                  generateSettingsFrame,
                calls := conn.calls ++
                  [lit "PRI * HTTP/2.0\r\n\r\nSM\r\n\r\n", generateSettingsFrame,
                    generateWindowUpdateFrame 0] },
          some e)) ∧
    (fails conn.calls.length = none → fails (conn.calls.length + 1) = none →
      fails (conn.calls.length + 2) = none →
      EstablishH2Connection fails (some conn) =
        (some { written := conn.written ++ lit "PRI * HTTP/2.0\r\n\r\nSM\r\n\r\n" ++
                  generateSettingsFrame ++ generateWindowUpdateFrame 0,
                calls := conn.calls ++
                  [lit "PRI * HTTP/2.0\r\n\r\nSM\r\n\r\n", generateSettingsFrame,
                    generateWindowUpdateFrame 0] },
          none)) ∧
    ((EstablishH2Connection fails (some conn)).2 = none ↔
      (fails conn.calls.length = none ∧ fails (conn.calls.length + 1) = none ∧
        fails (conn.calls.length + 2) = none)) := by
  have c1 : ∀ e, fails conn.calls.length = some e →
      EstablishH2Connection fails (some conn) =
        (some { written := conn.written,
                calls := conn.calls ++ [lit "PRI * HTTP/2.0\r\n\r\nSM\r\n\r\n"] }, some e) := by
    intro e h1
    simp [EstablishH2Connection, sendMagicReq, connWrite, h1]
  have c2 : ∀ e, fails conn.calls.length = none → fails (conn.calls.length + 1) = some e →
      EstablishH2Connection fails (some conn) =
        (some { written := conn.written ++ lit "PRI * HTTP/2.0\r\n\r\nSM\r\n\r\n",
                calls := conn.calls ++
                  [lit "PRI * HTTP/2.0\r\n\r\nSM\r\n\r\n", generateSettingsFrame] },
          some e) := by
    intro e h1 h2
    simp [EstablishH2Connection, sendMagicReq, SendCustomFrame, connWrite, h1, h2]
  have c3 : ∀ e, fails conn.calls.length = none → fails (conn.calls.length + 1) = none →
      fails (conn.calls.length + 2) = some e →
      EstablishH2Connection fails (some conn) =
        (some { written := conn.written ++ lit "PRI * HTTP/2.0\r\n\r\nSM\r\n\r\n" ++
                  generateSettingsFrame,
                calls := conn.calls ++
                  [lit "PRI * HTTP/2.0\r\n\r\nSM\r\n\r\n", generateSettingsFrame,
                    generateWindowUpdateFrame 0] },
          some e) := by
    intro e h1 h2 h3
    simp [EstablishH2Connection, sendMagicReq, SendCustomFrame, connWrite, h1, h2, h3]
  have c4 : fails conn.calls.length = none → fails (conn.calls.length + 1) = none →
      fails (conn.calls.length + 2) = none →
      EstablishH2Connection fails (some conn) =
        (some { written := conn.written ++ lit "PRI * HTTP/2.0\r\n\r\nSM\r\n\r\n" ++
                  generateSettingsFrame ++ generateWindowUpdateFrame 0,
                calls := conn.calls ++
                  [lit "PRI * HTTP/2.0\r\n\r\nSM\r\n\r\n", generateSettingsFrame,
                    generateWindowUpdateFrame 0] },
          none) := by
    intro h1 h2 h3
    simp [EstablishH2Connection, sendMagicReq, SendCustomFrame, connWrite, h1, h2, h3]
  refine ⟨by decide, by simp [EstablishH2Connection, sendMagicReq], c1, c2, c3, c4, ?_⟩
  constructor
  · intro h
    cases h1 : fails conn.calls.length with
    | some e => rw [c1 e h1] at h; simp at h
    | none =>
      cases h2 : fails (conn.calls.length + 1) with
      | some e => rw [c2 e h1 h2] at h; simp at h
      | none =>
        cases h3 : fails (conn.calls.length + 2) with
        | some e => rw [c3 e h1 h2 h3] at h; simp at h
        | none => exact ⟨rfl, rfl, rfl⟩
  · rintro ⟨h1, h2, h3⟩
    rw [c4 h1 h2 h3]

/-! ## Claim C18 -/

/-- Claim C18, on the code: for every stream id `generateWindowUpdateFrame` returns 13
bytes with length field 4, type `0x08` and flags `0x00`, and its payload is `7f 0f ff ff`,
which read as a 31-bit big-endian increment is 2131755007; 32767, the value the comment of
line 402 names, would be `00 00 7f ff`. -/
theorem C18_window_update_increment (streamId : Nat) :
    (generateWindowUpdateFrame streamId).length = 13 ∧
    (generateWindowUpdateFrame streamId).take 5 = [0x00, 0x00, 0x04, 0x08, 0x00] ∧
    (generateWindowUpdateFrame streamId).drop 9 = [0x7F, 0x0F, 0xFF, 0xFF] ∧
    beValue ((generateWindowUpdateFrame streamId).drop 9) % 2 ^ 31 = 2131755007 ∧
    beValue [0x00, 0x00, 0x7F, 0xFF] % 2 ^ 31 = 32767 := by
  rw [generateWindowUpdateFrame_eq]
  refine ⟨rfl, rfl, rfl, rfl, by decide⟩

/-! ## Claim C19 -/

/-- Claim C19, on the code: for every state, a DATA frame on the target stream with flags
byte `0x9` (END_STREAM and PADDED) sends no message and leaves its payload in the
accumulated body; line 297 compares the whole flags byte with `0x1`. The same frame with
flags byte `0x1` sends one SUCCESS message and clears the body. -/
theorem C19_padded_end_stream {D : Type} (hpackWrite : D → Bytes → D × List (Bytes × Bytes))
    (scanJob : ScanJob) (s : LoopState D) (data : Bytes) :
    0x9 % 2 = 1 ∧
    (handleFrame hpackWrite scanJob s (InFrame.DataFrame scanJob.StreamId 0x9 data)).2.1 = [] ∧
    (handleFrame hpackWrite scanJob s
      (InFrame.DataFrame scanJob.StreamId 0x9 data)).1.hpackBody = s.hpackBody ++ data ∧
    (classify noFields () 1 [] [InFrame.DataFrame 1 0x9 (lit "hi")]).2.1 = [] ∧
    (classify noFields () 1 [] [InFrame.DataFrame 1 0x9 (lit "hi")]).1.hpackBody = lit "hi" ∧
    (classify noFields () 1 [] [InFrame.DataFrame 1 0x1 (lit "hi")]).2.1 =
      [lit "SUCCESS [] Length: 2"] ∧
    (classify noFields () 1 [] [InFrame.DataFrame 1 0x1 (lit "hi")]).1.hpackBody = [] := by
  refine ⟨by decide, ?_, ?_, by decide, by decide, by decide, by decide⟩
  · rw [handleFrame_data]; simp
  · simp [handleFrame]

/-! ## Claim C20 -/

/-- Claim C20: for every valid request whose custom header name starts with none of the
five withhold tokens and whose literals are each at most 126 bytes long, the
static/literal-only decoder consumes the whole header block of `GenerateRequest` and
returns `:scheme: https`, `:authority`, `:method`, `:path`, the custom header, the
additional header when there is one, `user-agent` and `accept: */*`, in this order. -/
theorem C20_static_decode (ua h p cn cv m ah name value : Bytes)
    (hs : splitAdditionalHeader ah = Except.ok (name, value))
    (h1 : ¬ lit ":scheme" <+: cn) (h2 : ¬ lit ":authority" <+: cn)
    (h3 : ¬ lit ":method" <+: cn) (h4 : ¬ lit ":path" <+: cn)
    (h5 : ¬ lit "user-agent" <+: cn)
    (hh : h.length ≤ 126) (hm : m.length ≤ 126) (hp : p.length ≤ 126)
    (hcn : cn.length ≤ 126) (hcv : cv.length ≤ 126)
    (hname : name.length ≤ 126) (hvalue : value.length ≤ 126) (hua : ua.length ≤ 126) :
    decodeBlock (headerBlock ua h p cn cv m ah) =
      some ([(lit ":scheme", lit "https"), (lit ":authority", h), (lit ":method", m),
          (lit ":path", p), (cn, cv)] ++ (additionalOf ah name value).toList ++
        [(lit "user-agent", ua), (lit "accept", lit "*/*")]) := by
  have hadd : ∀ nv ∈ additionalOf ah name value, nv.1.length ≤ 126 ∧ nv.2.length ≤ 126 := by
    intro nv hnv
    unfold additionalOf at hnv
    split_ifs at hnv
    · simp at hnv
    · simp only [Option.mem_def, Option.some.injEq] at hnv
      subst hnv
      exact ⟨hname, hvalue⟩
  rw [headerBlock_eq ua h p cn cv m ah name value hs, withholdFlags_none cn h1 h2 h3 h4 h5,
    orderedFields_octets _ ua h p cn cv m _ (by omega) (by omega) (by omega) (by omega)
      (by omega) (by omega) (fun nv hnv => ⟨by have := (hadd nv hnv).1; omega,
        by have := (hadd nv hnv).2; omega⟩)]
  exact decodeBlock_orderedFields ua h p cn cv m _ hh hm hp hcn hcv hua hadd

/-- Claim C20 at a concrete request. -/
theorem C20_static_decode_witness :
    (splitAdditionalHeader (lit "X-Foo: bar") = Except.ok ((lit "X-Foo"), (lit "bar"))) ∧
    (¬ lit ":scheme" <+: (lit "x-test")) ∧
    (¬ lit ":authority" <+: (lit "x-test")) ∧
    (¬ lit ":method" <+: (lit "x-test")) ∧
    (¬ lit ":path" <+: (lit "x-test")) ∧
    (¬ lit "user-agent" <+: (lit "x-test")) ∧
    ((lit "example.com").length ≤ 126) ∧
    ((lit "POST").length ≤ 126) ∧
    ((lit "/").length ≤ 126) ∧
    ((lit "x-test").length ≤ 126) ∧
    ((lit "1").length ≤ 126) ∧
    ((lit "X-Foo").length ≤ 126) ∧
    ((lit "bar").length ≤ 126) ∧
    ((lit "smugglefuzz").length ≤ 126) ∧
    decodeBlock (headerBlock (lit "smugglefuzz") (lit "example.com") (lit "/") (lit "x-test") (lit "1") (lit "POST") (lit "X-Foo: bar")) =
      some ([(lit ":scheme", lit "https"), (lit ":authority", (lit "example.com")), (lit ":method", (lit "POST")),
          (lit ":path", (lit "/")), ((lit "x-test"), (lit "1"))] ++ (additionalOf (lit "X-Foo: bar") (lit "X-Foo") (lit "bar")).toList ++
        [(lit "user-agent", (lit "smugglefuzz")), (lit "accept", lit "*/*")]) :=
  ⟨rfl, by decide, by decide, by decide, by decide, by decide, by decide, by decide, by decide, by decide, by decide, by decide, by decide, by decide,
    C20_static_decode (lit "smugglefuzz") (lit "example.com") (lit "/") (lit "x-test") (lit "1") (lit "POST") (lit "X-Foo: bar") (lit "X-Foo") (lit "bar")
      (rfl) (by decide) (by decide) (by decide) (by decide) (by decide) (by decide) (by decide) (by decide) (by decide) (by decide) (by decide) (by decide) (by decide)⟩

end Http2
